import Mathlib

/-!
Verification development for the FirstAm-Lambda official-quote V2 flow
(L1/L2 negotiation): a shallow embedding of the relevant JavaScript
modules (`official-quote-v2/question-parser.js`, `l1-handler.js`,
`l2-handler.js`, `handler.js`, the session manager, `shared/xml-builders.js`
and the quick-quote fee composition embedded in `deploy.sh`), followed by
theorems about the embedded definitions.

Conventions of the embedding:
* JavaScript scalar values (string / number / boolean / null) are the
  inductive `JSVal`; an absent (`undefined`) value is `Option.none` at the
  use site.  JS numbers are modelled as `Rat` (the programs do only exact
  decimal arithmetic at the places the theorems touch).
* Parsed-XML objects (`xml2js` with `explicitArray: false`) are records
  whose fields are `Option`s; a node that may come back either as a single
  object or as an array is `NodeOr`.
* Thrown exceptions are modelled with `Except`/`Option` return types:
  a `.error`/`none` result corresponds to the JS function throwing.
-/

/-- One JavaScript scalar value (string, number, boolean or null). -/
inductive JSVal where
  | vStr (s : String)
  | vNum (q : ℚ)
  | vBool (b : Bool)
  | vNull
  deriving DecidableEq, Repr

namespace JSVal

/-- JS truthiness of a value (`Boolean(v)`): empty string, 0, `false` and
`null` are falsy. -/
def truthy : JSVal → Bool
  | vStr s => s ≠ ""
  | vNum q => q ≠ 0
  | vBool b => b
  | vNull => false

end JSVal

/-- Decimal string of a non-negative rational that is an integer; used by the
embedding of JS number-to-string conversion (the sources only convert
integral amounts to strings on the paths the theorems evaluate). -/
def ratIntDecimal (q : ℚ) : String :=
  if q.den = 1 then toString q.num else toString q.num ++ "/" ++ toString q.den

/-- Embedding of JS `String(v)`. -/
def jsToString : JSVal → String
  | .vStr s => s
  | .vNum q => ratIntDecimal q
  | .vBool b => if b then "true" else "false"
  | .vNull => "null"

/-- Whitespace trimming on a character list (both ends), the character
level counterpart of JS string trimming. -/
def charListTrim (cs : List Char) : List Char :=
  ((cs.dropWhile Char.isWhitespace).reverse.dropWhile Char.isWhitespace).reverse

/-- Lower-casing a string character by character (ASCII suffices for the
literals the sources compare). -/
def strLower (s : String) : String :=
  String.mk (s.data.map Char.toLower)

/-- Upper-casing a string character by character. -/
def strUpper (s : String) : String :=
  String.mk (s.data.map Char.toUpper)

/-- Decimal digits of a character list as a natural number, `none` when
the list is empty or holds a non-digit. -/
def digitsVal? (cs : List Char) : Option Nat :=
  if cs = [] then none
  else cs.foldl (fun acc c =>
    acc.bind (fun n => if c.isDigit then some (n * 10 + (c.toNat - 48)) else none))
    (some 0)

/-- Embedding of JS `Number(string)` restricted to plain decimal literals
(optional sign, integer part, optional fraction); the empty or all-blank
string converts to 0, anything else unparsable is NaN (`none`).  Exponents
and hex literals are outside the subset the repository feeds to `Number`. -/
def jsNumberOfString (s : String) : Option ℚ :=
  let t := charListTrim s.data
  if t = [] then some 0 else
  let (sign, u) : ℚ × List Char :=
    match t with
    | '-' :: rest => (-1, rest)
    | '+' :: rest => (1, rest)
    | _ => (1, t)
  match u.span (fun c => c ≠ '.') with
  | (a, []) => (digitsVal? a).map (fun n => sign * n)
  | (a, _ :: b) =>
    if b.contains '.' then none
    else
      match digitsVal? a, digitsVal? b with
      | some na, some nb => some (sign * (na + (nb : ℚ) / (10 ^ b.length)))
      | some na, none => if b = [] then some (sign * na) else none
      | none, some nb => if a = [] then some (sign * ((nb : ℚ) / (10 ^ b.length))) else none
      | none, none => none

/-- Embedding of JS `Number(v)`: `null` is 0, booleans are 0/1, strings go
through `jsNumberOfString`; NaN is `none`. -/
def jsToNumber : JSVal → Option ℚ
  | .vStr s => jsNumberOfString s
  | .vNum q => some q
  | .vBool b => some (if b then 1 else 0)
  | .vNull => some 0

/-- Longest leading run of decimal digits of a character list. -/
def leadingDigits : List Char → List Char
  | [] => []
  | c :: cs => if c.isDigit then c :: leadingDigits cs else []

/-- Embedding of JS `parseInt(string)`: optional sign then the leading digit
run; NaN (`none`) when no digit is present. -/
def jsParseIntStr (s : String) : Option Int :=
  let t := charListTrim s.data
  let (sign, u) : Int × List Char :=
    match t with
    | '-' :: rest => (-1, rest)
    | '+' :: rest => (1, rest)
    | _ => (1, t)
  match leadingDigits u with
  | [] => none
  | ds => (digitsVal? ds).map (fun n => sign * n)

/-- Embedding of JS `parseInt(v)` on an arbitrary value (the argument is
first converted with `String(v)`). -/
def jsParseInt (v : JSVal) : Option Int :=
  jsParseIntStr (jsToString v)

/-- Embedding of JS `parseFloat(string)`: longest leading decimal prefix
(optional sign, digits, optional fraction), trailing junk ignored; NaN
(`none`) when no digit is read. -/
def jsParseFloatStr (s : String) : Option ℚ :=
  let t := s.data.dropWhile Char.isWhitespace
  let (sign, u) : ℚ × List Char :=
    match t with
    | '-' :: rest => (-1, rest)
    | '+' :: rest => (1, rest)
    | _ => (1, t)
  let intPart := leadingDigits u
  let rest := u.drop intPart.length
  let fracPart := match rest with
    | '.' :: cs => leadingDigits cs
    | _ => []
  if intPart = [] ∧ fracPart = [] then none
  else
    let na := (digitsVal? intPart).getD 0
    let nb := (digitsVal? fracPart).getD 0
    some (sign * ((na : ℚ) + (nb : ℚ) / (10 ^ fracPart.length)))

/-- Two-digit zero padding of a natural number below 100. -/
def pad2 (n : Nat) : String :=
  if n < 10 then "0" ++ toString n else toString n

/-- Embedding of JS `x.toFixed(2)` for non-negative rationals: rounds
half-up to two decimals and prints both fraction digits.  The scaled
numerator `n` is `⌊q * 100 + 1 / 2⌋`, written as a floor division of
integers (`(200 * num + den) / (2 * den)`). -/
def ratToFixed2 (q : ℚ) : String :=
  let n : Int := Int.fdiv (q.num * 200 + (q.den : Int)) (2 * (q.den : Int))
  let whole := n / 100
  let frac := (n % 100).toNat
  toString whole ++ "." ++ pad2 frac

/-- An answer set as submitted by the caller: question identifier to JS
value (a parsed JSON object). -/
def AnswerSet := List (String × JSVal)
  deriving DecidableEq, Repr

/-- Property lookup (`obj[key]`) on an answer set; `none` is `undefined`. -/
def lookupAns (a : AnswerSet) (k : String) : Option JSVal :=
  (List.find? (fun p => p.1 = k) a).map (·.2)

/-- A single-or-array node as produced by `xml2js` without `explicitArray`:
an element that repeats parses to an array, one that does not parses to a
plain object. -/
inductive NodeOr (α : Type) where
  | one (a : α)
  | many (l : List α)
  deriving DecidableEq, Repr

/-- The list of values of a `NodeOr`, the way the sources normalise with
`Array.isArray(x) ? x : [x]`. -/
def NodeOr.toList {α : Type} : NodeOr α → List α
  | .one a => [a]
  | .many l => l

namespace QuestionParser

/-- Whether `pat` leads the list `cs`. -/
def leadsList : List Char → List Char → Bool
  | [], _ => true
  | _ :: _, [] => false
  | p :: ps, c :: cs => p = c && leadsList ps cs

/-- Whether `pat` occurs as a contiguous sublist of `cs`. -/
def hasSubList (pat : List Char) : List Char → Bool
  | [] => leadsList pat []
  | c :: cs => leadsList pat (c :: cs) || hasSubList pat cs

/-- Substring test used for the keyword matching (JS
`String.prototype.includes`). -/
def strIncludes (s pat : String) : Bool :=
  hasSubList pat.data s.data

/-- One `label`/`value` option of a multiple-choice question. -/
structure OptionKV where
  label : Option String := none
  value : Option String := none
  deriving DecidableEq, Repr

/-- One raw question as produced by `parseL2Questions` from the L1
response (`linkKey`, `questionText`, … fields of the parsed Q&A entry);
absent XML children are `none`. -/
structure RawQuestion where
  linkKey : Option String := none
  questionText : Option String := none
  description : Option String := none
  defaultAnswer : Option String := none
  paramCode : Option String := none
  paramName : Option String := none
  valueType : Option String := none
  options : List OptionKV := []
  deriving DecidableEq, Repr

/-- Embedding of `generateHelpText` of `question-parser.js`. -/
def generateHelpText (q : RawQuestion) : String :=
  let questionLower := strLower (q.questionText.getD "")
  let paramNameLower := strLower (q.paramName.getD "")
  if strIncludes questionLower "vacant land" then
    "Indicate if the property is currently vacant land without structures"
  else if strIncludes questionLower "home improvement" then
    "Improvements may affect title insurance requirements"
  else if strIncludes questionLower "construction" then
    "New construction may have different fee structures"
  else if strIncludes paramNameLower "escrow fee" then
    "Additional escrow services may be required"
  else if strIncludes paramNameLower "lien waiver" then
    "Required if recent improvements were made to the property"
  else
    match q.description with
    | some d => if d ≠ "" then d
        else "Please provide the requested information for accurate quote calculation"
    | none => "Please provide the requested information for accurate quote calculation"

/-- One question in the web-app format produced by
`formatQuestionsForWebApp`; the fields `min`, `max`, `step` and
`maxLength` are only set on some branches (absent means the JS object has
no such property). -/
structure FormattedQuestion where
  id : Option String := none
  question : Option String := none
  description : String := ""
  paramCode : Option String := none
  paramName : Option String := none
  required : Bool := true
  defaultAnswer : Option String := none
  qType : String := "text"
  options : List OptionKV := []
  min : Option ℚ := none
  max : Option ℚ := none
  step : Option ℚ := none
  maxLength : Option Nat := none
  helpText : String := ""
  deriving DecidableEq, Repr

/-- Embedding of `formatQuestionsForWebApp` applied to one raw question
(the body of the `map` callback). -/
def formatOneQuestion (q : RawQuestion) : FormattedQuestion :=
  let base : FormattedQuestion :=
    { id := q.linkKey
      question := q.questionText
      description := q.description.getD ""
      paramCode := q.paramCode
      paramName := q.paramName
      required := true
      defaultAnswer := q.defaultAnswer
      helpText := generateHelpText q }
  if q.options ≠ [] then
    { base with qType := "select", options := q.options }
  else
    match q.valueType with
    | some vt =>
      if strUpper vt = "CURRENCY" then { base with qType := "currency", min := some 0 }
      else if strUpper vt = "INTEGER" then { base with qType := "number", step := some 1 }
      else if strUpper vt = "STRING" then { base with qType := "text" }
      else { base with qType := "text" }
    | none => { base with qType := "text" }

/-- Embedding of `formatQuestionsForWebApp` (the `null`/non-array guard of
the source corresponds to the caller passing an empty list). -/
def formatQuestionsForWebApp (raw : List RawQuestion) : List FormattedQuestion :=
  raw.map formatOneQuestion

/-- One validation violation: offending question identifier plus message. -/
structure VError where
  questionId : Option String := none
  error : String := ""
  deriving DecidableEq, Repr

/-- The violations `validateAnswers` records for a single question (the
body of its `forEach` callback); `ans` is `answers[question.id]`. -/
def validateOneQuestion (q : FormattedQuestion) (ans : Option JSVal) : List VError :=
  let requiredMissing :=
    q.required && (match ans with
      | none => true
      | some v => !v.truthy && v ≠ .vNum 0)
  if requiredMissing then
    [{ questionId := q.id, error := "This question is required" }]
  else
    match ans with
    | none => []
    | some .vNull => []
    | some v =>
      if q.qType = "select" then
        let validValues := q.options.map (fun o => o.value)
        if !(validValues.contains (some (jsToString v))) then
          [{ questionId := q.id
             error := "Invalid option. Must be one of: " ++
               String.intercalate ", " (validValues.map (fun o => o.getD "")) }]
        else []
      else if q.qType = "number" ∨ q.qType = "currency" then
        match jsToNumber v with
        | none => [{ questionId := q.id, error := "Must be a valid number" }]
        | some n =>
          (match q.min with
            | some m => if n < m then
                [{ questionId := q.id, error := "Must be at least " ++ ratIntDecimal m }] else []
            | none => []) ++
          (match q.max with
            | some m => if n > m then
                [{ questionId := q.id, error := "Must be at most " ++ ratIntDecimal m }] else []
            | none => [])
      else if q.qType = "text" then
        match q.maxLength, v with
        | some ml, .vStr s =>
          if s.length > ml then
            [{ questionId := q.id
               error := "Must be " ++ toString ml ++ " characters or less" }]
          else []
        | _, _ => []
      else []

/-- Result of `validateAnswers`. -/
structure ValidationResult where
  valid : Bool
  errors : List VError
  deriving DecidableEq, Repr

/-- Embedding of `validateAnswers` of `question-parser.js`: the `forEach`
loop pushing onto a shared `errors` array is the left fold accumulating
each question's violations in order. -/
def validateAnswers (questions : List FormattedQuestion) (answers : AnswerSet) :
    ValidationResult :=
  let errors := questions.foldl
    (fun acc q => acc ++ validateOneQuestion q (q.id.bind (lookupAns answers))) []
  { valid := errors.length = 0, errors := errors }

end QuestionParser

namespace QuestionParser

/-- The `lvis:Answers` child of a Q&A entry (its `lvis:string` child plus
any further children, which the merge never reads). -/
structure AnswersNode where
  str : Option String := none
  extra : List (String × String) := []
  deriving DecidableEq, Repr

/-- One `lvis:KeyValue` child of an `lvis:Options` node. -/
structure KeyValue where
  key : Option String := none
  value : Option String := none
  extra : List (String × String) := []
  deriving DecidableEq, Repr

/-- The `lvis:Options` child of a Q&A entry. -/
structure OptionsNode where
  keyValue : Option (NodeOr KeyValue) := none
  extra : List (String × String) := []
  deriving DecidableEq, Repr

/-- The `lvis:Param` child of a Q&A entry. -/
structure ParamNode where
  paramCode : Option String := none
  name : Option String := none
  valueType : Option String := none
  value : Option String := none
  extra : List (String × String) := []
  deriving DecidableEq, Repr

/-- One `lvis:RateCalcQandA` entry of the pending structure; `extra` holds
children the code never touches. -/
structure QandA where
  linkKey : Option String := none
  isPrompt : Option String := none
  question : Option String := none
  description : Option String := none
  defaultAnswer : Option String := none
  answers : Option AnswersNode := none
  param : Option ParamNode := none
  optionsNode : Option OptionsNode := none
  extra : List (String × String) := []
  deriving DecidableEq, Repr

/-- The `lvis:QandAs` node. -/
structure QandAsNode where
  rateCalcQandA : Option (NodeOr QandA) := none
  extra : List (String × String) := []
  deriving DecidableEq, Repr

/-- The `lvis:RateCalcRequest` node; `extra` covers the embedded original
request fragment and every other child the merge leaves alone. -/
structure RateCalcRequestNode where
  qandas : Option QandAsNode := none
  extra : List (String × String) := []
  deriving DecidableEq, Repr

/-- The `lvis:CalcRateLevel2Data` sub-structure returned by L1 and echoed
back on L2. -/
structure CalcRateLevel2Data where
  rateCalcRequest : Option RateCalcRequestNode := none
  extra : List (String × String) := []
  deriving DecidableEq, Repr

/-- The per-entry update of `mapAnswersToL2Format` (the body of its
`forEach`): the user answer is looked up by the entry's `lvis:LinkKey`,
and only an entry whose `lvis:IsPrompt` is the string "true" and whose
link key has an answer is rewritten — its `lvis:Answers` is replaced by a
fresh `{ 'lvis:string': String(answer) }` node and, when an `lvis:Param`
child exists, that child's `lvis:Value` is overwritten too. -/
def updateQandA (userAnswers : AnswerSet) (qa : QandA) : QandA :=
  match qa.linkKey.bind (lookupAns userAnswers) with
  | some v =>
    if qa.isPrompt = some "true" then
      { qa with
        answers := some { str := some (jsToString v), extra := [] }
        param := qa.param.map (fun p => { p with value := some (jsToString v) }) }
    else qa
  | none => qa

/-- Embedding of `mapAnswersToL2Format` of `question-parser.js`.  The JS
deep clone (`JSON.parse(JSON.stringify(...))`) followed by in-place
mutation corresponds to this pure function: the caller's structure is left
untouched and a rewritten copy is returned.  A missing
`lvis:RateCalcRequest`/`lvis:QandAs`/`lvis:RateCalcQandA` path leaves the
clone unchanged; a non-array Q&A node is updated in place exactly like a
one-element array (the source wraps it in `[qandaArray]`, sharing the
reference). -/
def mapAnswersToL2Format (calcRateLevel2Data : Option CalcRateLevel2Data)
    (userAnswers : AnswerSet) : Option CalcRateLevel2Data :=
  match calcRateLevel2Data with
  | none => none
  | some data =>
    match data.rateCalcRequest with
    | none => some data
    | some rcr =>
      match rcr.qandas with
      | none => some data
      | some qnode =>
        match qnode.rateCalcQandA with
        | none => some data
        | some node =>
          let node' : NodeOr QandA :=
            match node with
            | .one qa => .one (updateQandA userAnswers qa)
            | .many l => .many (l.map (updateQandA userAnswers))
          let qnode' : QandAsNode := { qnode with rateCalcQandA := some node' }
          let rcr' : RateCalcRequestNode := { rcr with qandas := some qnode' }
          some { data with rateCalcRequest := some rcr' }

end QuestionParser

namespace Mismo

/-- The `FEE_DETAIL` child of one fee of the MISMO response. -/
structure FeeDetail where
  feeDescription : Option String := none
  disclosureItemName : Option String := none
  deriving DecidableEq, Repr

/-- One `FEE_PAYMENT` entry. -/
structure FeePayment where
  feePaymentPaidByType : Option String := none
  feeActualPaymentAmount : Option String := none
  feeEstimatedPaymentAmount : Option String := none
  deriving DecidableEq, Repr

/-- The `FEE_PAYMENTS` wrapper. -/
structure FeePaymentsNode where
  feePayment : Option (NodeOr FeePayment) := none
  deriving DecidableEq, Repr

/-- One `FEE` of the response. -/
structure FeeEntry where
  feeDetail : Option FeeDetail := none
  feePayments : Option FeePaymentsNode := none
  deriving DecidableEq, Repr

/-- The `FEES` wrapper. -/
structure FeesNode where
  fee : Option (NodeOr FeeEntry) := none
  deriving DecidableEq, Repr

/-- The `FEE_INFORMATION` wrapper. -/
structure FeeInfoNode where
  fees : Option FeesNode := none
  deriving DecidableEq, Repr

/-- One `LOAN_COMMENT` (the `$`/`xlink:label` attribute plus the comment
text, which `xml2js` may deliver as a single string or an array). -/
structure LoanComment where
  xlinkLabel : Option String := none
  loanCommentText : Option (NodeOr String) := none
  deriving DecidableEq, Repr

/-- The `LOAN_COMMENTS` wrapper. -/
structure LoanCommentsNode where
  loanComment : Option (NodeOr LoanComment) := none
  deriving DecidableEq, Repr

/-- The `LOAN` node (only the children the parsers read). -/
structure LoanNode where
  feeInformation : Option FeeInfoNode := none
  loanComments : Option LoanCommentsNode := none
  deriving DecidableEq, Repr

/-- The `LOANS` wrapper. -/
structure LoansNode where
  loan : Option LoanNode := none
  deriving DecidableEq, Repr

/-- The `DEAL` node. -/
structure DealNode where
  loans : Option LoansNode := none
  deriving DecidableEq, Repr

/-- The `DEALS` wrapper. -/
structure DealsNode where
  deal : Option DealNode := none
  deriving DecidableEq, Repr

/-- The `DEAL_SET` node. -/
structure DealSetNode where
  deals : Option DealsNode := none
  deriving DecidableEq, Repr

/-- The `DEAL_SETS` wrapper. -/
structure DealSetsNode where
  dealSet : Option DealSetNode := none
  deriving DecidableEq, Repr

/-- The `MESSAGE` node. -/
structure MessageNode where
  dealSets : Option DealSetsNode := none
  deriving DecidableEq, Repr

/-- The content of an `lvis:MISMO_XML` element: its `MESSAGE` child. -/
structure MismoContent where
  message : Option (NodeOr MessageNode) := none
  deriving DecidableEq, Repr

/-- The `lvis:MISMO_XML` node, which the L2 extractor explicitly handles
both as a single object and as an array. -/
def MismoNode := NodeOr MismoContent
  deriving DecidableEq, Repr

/-- The `lvis:LVIS_CALCULATOR_RESPONSE` node.  `hasCalcuatedRates` is the
field with the upstream service's own typo (missing `l`), exactly as the
source reads it alongside the correctly spelled `hasCalculatedRates`. -/
structure CalculatorResponse where
  hasCalcuatedRates : Option String := none
  hasCalculatedRates : Option String := none
  calcRateLevel2Data : Option QuestionParser.CalcRateLevel2Data := none
  mismoXML : Option MismoNode := none
  deriving DecidableEq, Repr

/-- The `lvis:LVIS_XML` root element of a calculator response. -/
structure LvisXML where
  calculatorResponse : Option CalculatorResponse := none
  deriving DecidableEq, Repr

/-- A whole parsed calculator response (`xml2js.parseStringPromise`). -/
structure ParsedResponse where
  lvisXML : Option LvisXML := none
  deriving DecidableEq, Repr

end Mismo

namespace L1Handler

open QuestionParser Mismo

/-- Embedding of `parseL2Questions` applied to one prompted Q&A entry
(the body of the `forEach`, after the `IsPrompt === 'true'` test). -/
def rawQuestionOfQandA (qa : QandA) : RawQuestion :=
  { linkKey := qa.linkKey
    questionText := qa.question
    description := some (qa.description.getD "")
    defaultAnswer := qa.defaultAnswer
    paramCode := qa.param.bind (·.paramCode)
    paramName := qa.param.bind (·.name)
    valueType := qa.param.bind (·.valueType)
    options := match qa.optionsNode.bind (·.keyValue) with
      | none => []
      | some node => node.toList.map (fun kv => { label := kv.key, value := kv.value }) }

/-- Embedding of `parseL2Questions` of `l1-handler.js`: only entries whose
`lvis:IsPrompt` is the string "true" become user-facing questions. -/
def parseL2Questions (calcRateLevel2Data : Option CalcRateLevel2Data) :
    List RawQuestion :=
  match calcRateLevel2Data with
  | none => []
  | some data =>
    match data.rateCalcRequest.bind (fun r => r.qandas.bind (·.rateCalcQandA)) with
    | none => []
    | some node =>
      (node.toList.filter (fun qa => qa.isPrompt = some "true")).map rawQuestionOfQandA

/-- The path `lvis:LVIS_XML → lvis:LVIS_CALCULATOR_RESPONSE → lvis:MISMO_XML
→ MESSAGE → … → FEE_INFORMATION → FEES` walked by `parseFees` with plain
(non-optional) property accesses: a missing node on the way makes the next
access throw, which the `try`/`catch` turns into an empty result.  A
`MISMO_XML`/`MESSAGE` node that parsed as an array has no object
properties, so the chain also throws there. -/
def l1FeesNode (p : ParsedResponse) : Option FeesNode := do
  let lx ← p.lvisXML
  let cr ← lx.calculatorResponse
  let mm ← cr.mismoXML
  let mc ← match mm with | .one c => some c | .many _ => none
  let msgNode ← mc.message
  let msg ← match msgNode with | .one m => some m | .many _ => none
  let ds ← msg.dealSets
  let dset ← ds.dealSet
  let deals ← dset.deals
  let deal ← deals.deal
  let loans ← deal.loans
  let loan ← loans.loan
  let fi ← loan.feeInformation
  fi.fees

/-- Embedding of `parseFees` of `l1-handler.js`.  A failure anywhere on the
path up to and including the `FEES` access yields `[]` via the `catch`;
a present `FEES` node without a `FEE` child yields the JS `[undefined]`,
modelled as `[none]`; otherwise the single fee or the fee array. -/
def parseFees (p : ParsedResponse) : List (Option FeeEntry) :=
  match l1FeesNode p with
  | none => []
  | some fs =>
    match fs.fee with
    | none => [none]
    | some node => node.toList.map some

/-- The analogous path for `parseLoanComments`, ending at `LOAN_COMMENTS`. -/
def l1LoanCommentsNode (p : ParsedResponse) : Option LoanCommentsNode := do
  let lx ← p.lvisXML
  let cr ← lx.calculatorResponse
  let mm ← cr.mismoXML
  let mc ← match mm with | .one c => some c | .many _ => none
  let msgNode ← mc.message
  let msg ← match msgNode with | .one m => some m | .many _ => none
  let ds ← msg.dealSets
  let dset ← ds.dealSet
  let deals ← dset.deals
  let deal ← deals.deal
  let loans ← deal.loans
  let loan ← loans.loan
  loan.loanComments

/-- Embedding of `parseLoanComments` of `l1-handler.js` (same shape as
`parseFees`). -/
def parseLoanComments (p : ParsedResponse) : List (Option LoanComment) :=
  match l1LoanCommentsNode p with
  | none => []
  | some lc =>
    match lc.loanComment with
    | none => [none]
    | some node => node.toList.map some

/-- Embedding of the rates-ready test of `handleL1Request`
(`l1-handler.js`): the response signals calculated rates when either the
misspelled `lvis:HasCalcuatedRates` or the canonical
`lvis:HasCalculatedRates` field of the calculator response equals the
string "true". -/
def hasCalculatedRatesFlag (p : ParsedResponse) : Bool :=
  let cr := p.lvisXML.bind (·.calculatorResponse)
  (cr.bind (·.hasCalcuatedRates) == some "true") ||
  (cr.bind (·.hasCalculatedRates) == some "true")

/-- The two shapes `handleL1Request` returns after parsing the L1
response: immediate rates, or pending questions with the echo data. -/
inductive L1Outcome where
  | rates (fees : List (Option FeeEntry)) (loanComments : List (Option LoanComment))
  | questions (questions : List RawQuestion)
      (calcRateLevel2Data : Option CalcRateLevel2Data) (originalMISMO : Option MismoNode)
  deriving DecidableEq, Repr

/-- Whether an outcome is the rates-ready variant (`type: 'rates'` with
`hasCalculatedRates: true` in the source's returned object). -/
def L1Outcome.isRates : L1Outcome → Bool
  | .rates _ _ => true
  | .questions _ _ _ => false

/-- Embedding of the response-dependent tail of `handleL1Request` (the
branch after the L1 response is parsed): rates are returned when the flag
test passes, otherwise the questions plus the verbatim
`lvis:CalcRateLevel2Data` and `lvis:MISMO_XML` sub-structures. -/
def parseL1Outcome (p : ParsedResponse) : L1Outcome :=
  if hasCalculatedRatesFlag p then
    .rates (parseFees p) (parseLoanComments p)
  else
    let cr := p.lvisXML.bind (·.calculatorResponse)
    let l2data := cr.bind (·.calcRateLevel2Data)
    .questions (parseL2Questions l2data) l2data (cr.bind (·.mismoXML))

/-- The transaction amounts `handleL1Request` prepares before building any
request (its lines around `const transactionType = …`): Refinance swaps
the note amount in as the sales amount, and a zero note amount is replaced
by the sentinel 1000. -/
structure L1Amounts where
  transactionType : String
  salesAmount : ℚ
  noteAmount : ℚ
  deriving DecidableEq, Repr

/-- Embedding of the amount preparation of `handleL1Request`. -/
def prepareL1Amounts (salesContractAmount noteAmountIn : ℚ)
    (loanPurposeType : String) : L1Amounts :=
  { transactionType := if loanPurposeType = "Refinance" then "Refinance" else "Sale w/ Mortgage"
    salesAmount := if loanPurposeType = "Refinance" then noteAmountIn else salesContractAmount
    noteAmount := if noteAmountIn = 0 then 1000 else noteAmountIn }

end L1Handler

namespace XmlBuilders

/-- The dynamic parts of the XML produced by `buildRateCalcRequestXML` of
`shared/xml-builders.js`: every `${…}` hole of the template, in particular
the `SalesContractAmount` and `NoteAmount` element contents and the
`LoanPurposeType` branch of `TERMS_OF_LOAN`. -/
structure RateCalcRequestFields where
  actionType : String
  cityName : String
  countyName : String
  postalCode : String
  stateCode : String
  salesContractAmount : ℚ
  loanPurposeType : String
  loanPurposeTypeOtherDescription : Option String
  noteAmount : ℚ
  deriving DecidableEq, Repr

/-- Embedding of `buildRateCalcRequestXML`: the function recomputes
`salesAmount` (Refinance substitutes the incoming note amount) and
`noteAmountToUse` (zero becomes the sentinel 1000) from its own arguments
before interpolating them into the template. -/
def buildRateCalcRequestXML (actionType : String) (postalCode : String)
    (salesContractAmountArg noteAmountArg : ℚ) (loanPurposeType : String)
    (city countyName stateCode : String) : RateCalcRequestFields :=
  let salesAmount := if loanPurposeType = "Refinance" then noteAmountArg
    else salesContractAmountArg
  let noteAmountToUse := if noteAmountArg = 0 then 1000 else noteAmountArg
  { actionType := actionType
    cityName := city
    countyName := countyName
    postalCode := postalCode
    stateCode := stateCode
    salesContractAmount := salesAmount
    loanPurposeType := if loanPurposeType = "Refinance" then "Refinance" else "Other"
    loanPurposeTypeOtherDescription :=
      if loanPurposeType = "Refinance" then none else some "Sale w/ Mortgage"
    noteAmount := noteAmountToUse }

/-- The amounts `buildTitleServiceBlock` interpolates into
`TitleInsuranceAmount`: every owner (first-group) policy entry receives
the `salesAmount` argument and every lender (second-group) policy entry
the `noteAmount` argument; the lender group is skipped entirely for
`'Cash Purchase'`. -/
structure TitleBlockAmounts where
  ownerPolicyAmount : ℚ
  lenderPolicyAmount : Option ℚ
  deriving DecidableEq, Repr

/-- Embedding of the amount flow of `buildTitleServiceBlock` (the policy
identifiers, rate types and endorsements do not affect which amount lands
in which `TitleInsuranceAmount` slot). -/
def titleBlockAmounts (noteAmount salesAmount : ℚ) (loanPurposeType : String) :
    TitleBlockAmounts :=
  { ownerPolicyAmount := salesAmount
    lenderPolicyAmount := if loanPurposeType ≠ "Cash Purchase" then some noteAmount else none }

end XmlBuilders

namespace L1Handler

open XmlBuilders

/-- The L1 `RateCalc` request `handleL1Request` sends, as assembled from
`prepareL1Amounts` and `buildRateCalcRequestXML` (the handler passes its
precomputed `salesAmount` as the builder's `SalesContractAmount` argument
and the sentinel-adjusted `noteAmount` as its `NoteAmount` argument), next
to the title-block amounts the same call produces. -/
def l1SentRequest (postalCode : String) (salesContractAmount noteAmountIn : ℚ)
    (loanPurposeType : String) (forceL2Questions : Bool)
    (city countyName stateCode : String) :
    RateCalcRequestFields × TitleBlockAmounts :=
  let amounts := prepareL1Amounts salesContractAmount noteAmountIn loanPurposeType
  let actionType := if forceL2Questions then "RateCalcNoAutoCalc" else "RateCalc"
  ( buildRateCalcRequestXML actionType postalCode amounts.salesAmount amounts.noteAmount
      loanPurposeType city countyName stateCode
  , titleBlockAmounts amounts.noteAmount amounts.salesAmount loanPurposeType )

end L1Handler

namespace L2Handler

open QuestionParser Mismo

/-- The `Array.isArray(mismoXML) ? mismoXML[0]['MESSAGE'] : mismoXML['MESSAGE']`
step of the L2 extractors.  Indexing an empty array gives `undefined` and
the following property access throws; the surrounding `try`/`catch`
returns the empty result either way, so the model collapses that case to
`none`. -/
def l2Message (mm : MismoNode) : Option (NodeOr MessageNode) :=
  match mm with
  | .one c => c.message
  | .many [] => none
  | .many (c :: _) => c.message

/-- The `Array.isArray(message) ? message[0] : message` step. -/
def l2MessageParsed (msg : NodeOr MessageNode) : Option MessageNode :=
  match msg with
  | .one m => some m
  | .many [] => none
  | .many (m :: _) => some m

/-- The optional-chained walk
`messageParsed?.DEAL_SETS?.DEAL_SET?.DEALS?.DEAL?.LOANS?.LOAN` shared by
both L2 extractors. -/
def l2LoanNode (p : ParsedResponse) : Option LoanNode := do
  let lx ← p.lvisXML
  let cr ← lx.calculatorResponse
  let mm ← cr.mismoXML
  let msgNode ← l2Message mm
  let msg ← l2MessageParsed msgNode
  let ds ← msg.dealSets
  let dset ← ds.dealSet
  let deals ← dset.deals
  let deal ← deals.deal
  let loans ← deal.loans
  loans.loan

/-- Embedding of `extractFeesFromL2Response` of `l2-handler.js`: when the
fee path is present the single fee or fee array is returned, and every
other case — any missing node on the way included — falls through to the
`console.warn` branch and returns the empty list. -/
def extractFeesFromL2Response (p : ParsedResponse) : List FeeEntry :=
  match (l2LoanNode p).bind (fun loan => loan.feeInformation.bind
      (fun fi => fi.fees.bind (·.fee))) with
  | some node => node.toList
  | none => []

/-- Embedding of `extractLoanCommentsFromL2Response` of `l2-handler.js`. -/
def extractLoanCommentsFromL2Response (p : ParsedResponse) : List LoanComment :=
  match (l2LoanNode p).bind (fun loan => loan.loanComments.bind (·.loanComment)) with
  | some node => node.toList
  | none => []

/-- One processed fee row as produced by `processFees`. -/
structure ProcessedFee where
  feeDescription : String
  disclosureItemName : String
  buyerFee : String
  sellerFee : String
  deriving DecidableEq, Repr

/-- Addition on JS numbers where `none` is NaN (NaN propagates). -/
def addNaN (x y : Option ℚ) : Option ℚ :=
  match x, y with
  | some a, some b => some (a + b)
  | _, _ => none

/-- Rendering `toFixed(2)` of a JS number that may be NaN. -/
def optToFixed2 : Option ℚ → String
  | some q => ratToFixed2 q
  | none => "NaN"

/-- The `parseFloat(payment['Fee…PaymentAmount'] || 0)` step of
`processFees`: an absent field is the number 0 (so the parse yields 0),
a present string goes through `parseFloat`. -/
def paymentAmount (field : Option String) : Option ℚ :=
  match field with
  | none => some 0
  | some s => jsParseFloatStr s

/-- Embedding of the per-payment accumulation of `processFees`: the actual
amount is preferred unless it is falsy (0 or NaN), in which case the
estimated amount is used; the result is added to the buyer or seller
total according to `FeePaymentPaidByType`. -/
def accumulatePayment (acc : Option ℚ × Option ℚ) (payment : FeePayment) :
    Option ℚ × Option ℚ :=
  let actualAmount := paymentAmount payment.feeActualPaymentAmount
  let estimatedAmount := paymentAmount payment.feeEstimatedPaymentAmount
  let amount := match actualAmount with
    | some a => if a ≠ 0 then some a else estimatedAmount
    | none => estimatedAmount
  if payment.feePaymentPaidByType = some "Buyer" then (addNaN acc.1 amount, acc.2)
  else if payment.feePaymentPaidByType = some "Seller" then (acc.1, addNaN acc.2 amount)
  else acc

/-- Embedding of `processFees` of `l2-handler.js`.  The per-fee
`try`/`catch` cannot fire in the model because every property access in
the body is either guarded or optional-chained. -/
def processFees (fees : List FeeEntry) : List ProcessedFee :=
  fees.map (fun fee =>
    let feeDescription := match fee.feeDetail.bind (·.feeDescription) with
      | some s => if s ≠ "" then s else "Unknown Fee"
      | none => "Unknown Fee"
    let disclosureItemName := match fee.feeDetail.bind (·.disclosureItemName) with
      | some s => if s ≠ "" then s else ""
      | none => ""
    let payments := match fee.feePayments.bind (·.feePayment) with
      | none => []
      | some node => node.toList
    let totals := payments.foldl accumulatePayment (some 0, some 0)
    { feeDescription := feeDescription
      disclosureItemName := disclosureItemName
      buyerFee := optToFixed2 totals.1
      sellerFee := optToFixed2 totals.2 })

/-- Tag stripping (`.replace(/<[^>]+>/g, '')`): drops every maximal
`<`…`>` span with at least one non-`>` character inside; an unmatched `<`
is kept, like the regex leaves it. -/
def stripTagsGo : Nat → List Char → List Char
  | 0, cs => cs
  | _ + 1, [] => []
  | fuel + 1, c :: cs =>
    if c = '<' then
      let inner := cs.takeWhile (fun d => d ≠ '>')
      if inner ≠ [] ∧ cs.drop inner.length ≠ [] then
        stripTagsGo fuel ((cs.drop inner.length).drop 1)
      else c :: stripTagsGo fuel cs
    else c :: stripTagsGo fuel cs

/-- Tag stripping over a string (fuel bounded by the string length, which
the recursion never exhausts). -/
def stripTags (s : String) : String :=
  String.mk (stripTagsGo s.length s.data)

/-- The result object of `handleL2Request` (`type: 'final_rates'`); the
`rawResponse` debugging payload is omitted. -/
structure L2Result where
  hasCalculatedRates : Bool := true
  fees : List ProcessedFee := []
  totalBuyerFee : String := ""
  totalSellerFee : String := ""
  loanCommentText : String := ""
  deriving DecidableEq, Repr

/-- Embedding of the response-processing tail of `handleL2Request` (after
the HTTP exchange): fee extraction, per-fee processing, the
`reduce`-computed totals (`parseFloat(fee.BuyerFee || 0)` summed from 0),
and the `RESPONSE_NOTE_1` loan comment with HTML tags stripped. -/
def processL2Response (p : ParsedResponse) : L2Result :=
  let fees := extractFeesFromL2Response p
  let loanComments := extractLoanCommentsFromL2Response p
  let processedFees := processFees fees
  let totalBuyerFee := processedFees.foldl
    (fun s f => addNaN s (if f.buyerFee ≠ "" then jsParseFloatStr f.buyerFee else some 0))
    (some 0)
  let totalSellerFee := processedFees.foldl
    (fun s f => addNaN s (if f.sellerFee ≠ "" then jsParseFloatStr f.sellerFee else some 0))
    (some 0)
  let loanComment := loanComments.find? (fun c => c.xlinkLabel = some "RESPONSE_NOTE_1")
  let loanCommentText := match loanComment with
    | none => ""
    | some lc =>
      match lc.loanCommentText with
      | none => ""
      | some (.one s) => s
      | some (.many l) => (l.head?).getD ""
  { hasCalculatedRates := true
    fees := processedFees
    totalBuyerFee := optToFixed2 totalBuyerFee
    totalSellerFee := optToFixed2 totalSellerFee
    loanCommentText := stripTags loanCommentText }

/-- Embedding of `handleL2Request` with the HTTP exchange abstracted: the
`l2Exchange` argument stands for the network round trip (`.error` models a
thrown axios/parse error).  The answers are merged into the pending
structure first; a `null` pending structure aborts with the source's
mapping error, any other failure is wrapped the way the `catch` block
rethrows it. -/
def handleL2Request (l2Exchange : Except String ParsedResponse)
    (calcRateLevel2Data : Option CalcRateLevel2Data) (userAnswers : AnswerSet) :
    Except String L2Result :=
  match mapAnswersToL2Format calcRateLevel2Data userAnswers with
  | none => .error "Failed to process L2 request: Failed to map user answers to L2 format"
  | some _ =>
    match l2Exchange with
    | .error e => .error ("Failed to process L2 request: " ++ e)
    | .ok parsed => .ok (processL2Response parsed)

end L2Handler

namespace SessionManager

open QuestionParser Mismo

/-- Page numbers / consideration amounts as stored in the session (`none`
stands for a JS `null` or `NaN` slot, which behave identically at every
later truthiness test). -/
structure PageNumbers where
  deedPages : Option Int := none
  mortgagePages : Option Int := none
  deedConsideration : Option Int := none
  mortgageConsideration : Option Int := none
  deriving DecidableEq, Repr

/-- The object `handleL1Request` returns and the session stores as
`l1Response` (`locationData` is not read on the submit path and is
omitted). -/
structure L1Result where
  typ : String := "questions"
  hasCalculatedRates : Bool := false
  fees : List (Option FeeEntry) := []
  loanComments : List (Option LoanComment) := []
  questions : List RawQuestion := []
  calcRateLevel2Data : Option CalcRateLevel2Data := none
  originalMISMO : Option MismoNode := none
  deriving DecidableEq, Repr

/-- One persisted L2 session record (DynamoDB item of the
`QuoteSessionsV2` table).  Timestamps are abstract ticks; `ttl` is the
epoch-seconds expiry instant. -/
structure Session where
  postalCode : Option String := none
  salesContractAmount : Option ℚ := none
  noteAmount : Option ℚ := none
  loanPurposeType : Option String := none
  forceL2Questions : Bool := false
  createdAt : Nat := 0
  updatedAt : Nat := 0
  status : String := "pending_answers"
  ttl : Nat := 0
  l1Response : Option L1Result := none
  userAnswers : Option AnswerSet := none
  pageNumbers : Option PageNumbers := none
  finalRates : Option L2Handler.L2Result := none
  completedAt : Option Nat := none
  deriving DecidableEq

/-- The session store: records keyed by session identifier. -/
def Store := List (String × Session)
  deriving DecidableEq

/-- Record lookup in the store. -/
def storeGet (store : Store) (sessionId : String) : Option Session :=
  (List.find? (fun p => p.1 = sessionId) store).map (·.2)

/-- Embedding of `getL2Session` of the session manager: an absent record
makes it throw `'Session not found'`, a record with a truthy `ttl` in the
past makes it throw `'Session has expired'`; it never returns a null
session.  (The in-memory fallback map, consulted only when the DynamoDB
table itself is missing, is not modelled; it also either returns a record
or falls through to the same throws.) -/
def getL2Session (now : Nat) (store : Store) (sessionId : String) :
    Except String Session :=
  match storeGet store sessionId with
  | none => .error "Session not found"
  | some s =>
    if s.ttl ≠ 0 ∧ s.ttl < now then .error "Session has expired"
    else .ok s

/-- Field-merging update of one record (`updateL2Session`), which also
refreshes `updatedAt`; updating an absent record is a no-op in the model
(the handlers only update sessions they just read). -/
def updateL2Session (now : Nat) (store : Store) (sessionId : String)
    (f : Session → Session) : Store :=
  store.map (fun p => if p.1 = sessionId then (p.1, { f p.2 with updatedAt := now }) else p)

/-- Embedding of `storeUserAnswers`. -/
def storeUserAnswers (now : Nat) (store : Store) (sessionId : String)
    (answers : AnswerSet) : Store :=
  updateL2Session now store sessionId
    (fun s => { s with userAnswers := some answers, status := "answers_submitted" })

/-- Embedding of `storePageNumbers`. -/
def storePageNumbers (now : Nat) (store : Store) (sessionId : String)
    (pn : PageNumbers) : Store :=
  updateL2Session now store sessionId (fun s => { s with pageNumbers := some pn })

/-- Embedding of `storeFinalRates`. -/
def storeFinalRates (now : Nat) (store : Store) (sessionId : String)
    (finalRates : L2Handler.L2Result) : Store :=
  updateL2Session now store sessionId
    (fun s => { s with finalRates := some finalRates, status := "completed",
                       completedAt := some now })

/-- Embedding of `storeL1ResponseData`. -/
def storeL1ResponseData (now : Nat) (store : Store) (sessionId : String)
    (l1 : L1Result) : Store :=
  updateL2Session now store sessionId
    (fun s => { s with l1Response := some l1,
                       status := if l1.hasCalculatedRates then "rates_available"
                                 else "pending_answers" })

end SessionManager

namespace HandlerV2

open QuestionParser SessionManager L2Handler

/-- JS truthiness of a possibly-absent value. -/
def optTruthy : Option JSVal → Bool
  | some v => v.truthy
  | none => false

/-- The JSON body fields of the response objects the V2 handler builds
(`JSON.stringify({...})`); fields a given branch does not set are absent. -/
structure HttpResponse where
  statusCode : Nat
  error : Option String := none
  details : Option String := none
  message : Option String := none
  validationErrors : List VError := []
  fees : Option (List ProcessedFee) := none
  status : Option String := none
  totalBuyerFee : Option String := none
  totalSellerFee : Option String := none
  questions : Option (List FormattedQuestion) := none
  deriving DecidableEq

/-- Request body of the `submit` action. -/
structure SubmitBody where
  sessionId : Option String := none
  answers : Option AnswerSet := none
  deriving DecidableEq

/-- The environment of one handler invocation: the clock and the outcomes
of the (at most one each) L1 re-run and L2 HTTP exchange the invocation
may perform.  `.error` stands for the wrapped exception the corresponding
handler function would throw. -/
structure HandlerEnv where
  now : Nat := 0
  l1Exchange : Except String L1Result := .error "Failed to process L1 request: unreachable"
  l2Exchange : Except String Mismo.ParsedResponse := .error "Failed to process L2 request: unreachable"

/-- Result of one handler invocation: the HTTP response, the session
store afterwards, and how many upstream-calling functions
(`handleL1Request` / `handleL2Request`) were invoked. -/
structure HandlerOutcome where
  response : HttpResponse
  store : Store
  upstreamCalls : Nat

/-- The `answers.deedPages ? parseInt(answers.deedPages) : d` pattern of
`submitAnswersV2` (default page counts 3 and 15). -/
def pageFieldOf (answers : AnswerSet) (key : String) (dflt : Int) : Option Int :=
  match lookupAns answers key with
  | some v => if v.truthy then jsParseInt v else some dflt
  | none => some dflt

/-- The `answers.deedConsideration ? parseInt(...) : null` pattern. -/
def considerationFieldOf (answers : AnswerSet) (key : String) : Option Int :=
  match lookupAns answers key with
  | some v => if v.truthy then jsParseInt v else none
  | none => none

/-- The keys `submitAnswersV2` strips from the answers before the L2 call. -/
def pageKeys : List String :=
  ["deedPages", "mortgagePages", "deedConsideration", "mortgageConsideration"]

/-- The tail of `submitAnswersV2` from the `handleL2Request` call on:
on success the final rates are stored and the `completed` response is
returned (the `questionSummary` display payload is omitted from the
model); a thrown error lands in the 500 `catch`. -/
def submitRunL2 (env : HandlerEnv) (store : Store) (sessionId : String)
    (l1r : L1Result) (answers : AnswerSet) (callsSoFar : Nat) : HandlerOutcome :=
  match handleL2Request env.l2Exchange l1r.calcRateLevel2Data answers with
  | .error e =>
    { response := { statusCode := 500, error := some "Failed to submit answers",
                    details := some e }
      store := store, upstreamCalls := callsSoFar + 1 }
  | .ok l2Result =>
    { response := { statusCode := 200, status := some "completed",
                    message := some "Official quote generated successfully",
                    fees := some l2Result.fees,
                    totalBuyerFee := some l2Result.totalBuyerFee,
                    totalSellerFee := some l2Result.totalSellerFee }
      store := storeFinalRates env.now store sessionId l2Result
      upstreamCalls := callsSoFar + 1 }

/-- Embedding of `submitAnswersV2` of `official-quote-v2/handler.js`.
Notable points, faithful to the source: `getL2Session` throws for an
unknown or expired session, so the handler's `if (!session)` 404 branch
is dead code and the `catch` turns those throws into a 500; a session
already in status `completed` answers 400 with the stored fees before any
store write or upstream call; validation failures answer 400 before any
store write. -/
def submitAnswersV2 (env : HandlerEnv) (store : Store) (body : SubmitBody) :
    HandlerOutcome :=
  let required400 : HandlerOutcome :=
    { response := { statusCode := 400, error := some "sessionId and answers are required" }
      store := store, upstreamCalls := 0 }
  match body.sessionId, body.answers with
  | some sessionId, some answers0 =>
    if sessionId = "" then required400
    else
      match getL2Session env.now store sessionId with
      | .error e =>
        { response := { statusCode := 500, error := some "Failed to submit answers",
                        details := some e }
          store := store, upstreamCalls := 0 }
      | .ok session =>
        if session.status = "completed" then
          { response := { statusCode := 400,
                          error := some "This quote has already been completed",
                          fees := session.finalRates.map (·.fees) }
            store := store, upstreamCalls := 0 }
        else
          match session.l1Response with
          | none =>
            { response := { statusCode := 400,
                            error := some "No L2 questions found for this session" }
              store := store, upstreamCalls := 0 }
          | some l1r =>
            if l1r.calcRateLevel2Data = none then
              { response := { statusCode := 400,
                              error := some "No L2 questions found for this session" }
                store := store, upstreamCalls := 0 }
            else
              let formattedQuestions := formatQuestionsForWebApp l1r.questions
              let validationResult := validateAnswers formattedQuestions answers0
              if !validationResult.valid then
                { response := { statusCode := 400,
                                error := some "Invalid answers provided",
                                validationErrors := validationResult.errors }
                  store := store, upstreamCalls := 0 }
              else
                if optTruthy (lookupAns answers0 "deedPages") ∨
                   optTruthy (lookupAns answers0 "mortgagePages") then
                  let pn : PageNumbers :=
                    { deedPages := pageFieldOf answers0 "deedPages" 3
                      mortgagePages := pageFieldOf answers0 "mortgagePages" 15
                      deedConsideration := considerationFieldOf answers0 "deedConsideration"
                      mortgageConsideration :=
                        considerationFieldOf answers0 "mortgageConsideration" }
                  let store1 := storePageNumbers env.now store sessionId pn
                  let l2Answers := answers0.filter (fun p => !(pageKeys.contains p.1))
                  let store2 := storeUserAnswers env.now store1 sessionId l2Answers
                  match env.l1Exchange with
                  | .error e =>
                    { response := { statusCode := 500,
                                    error := some "Failed to submit answers",
                                    details := some e }
                      store := store2, upstreamCalls := 1 }
                  | .ok updatedL1 =>
                    let store3 := storeL1ResponseData env.now store2 sessionId updatedL1
                    submitRunL2 env store3 sessionId updatedL1 l2Answers 1
                else
                  let store1 := storeUserAnswers env.now store sessionId answers0
                  submitRunL2 env store1 sessionId l1r answers0 0
  | _, _ => required400

/-- Request body of the `status` action. -/
structure StatusBody where
  sessionId : Option String := none
  deriving DecidableEq

/-- Embedding of `getQuoteStatusV2` of `handler.js`: the same dead
`if (!session)` 404 branch, with unknown/expired sessions surfacing as
500 through the `catch`. -/
def getQuoteStatusV2 (env : HandlerEnv) (store : Store) (body : StatusBody) :
    HandlerOutcome :=
  match body.sessionId with
  | none =>
    { response := { statusCode := 400, error := some "sessionId is required" }
      store := store, upstreamCalls := 0 }
  | some sessionId =>
    if sessionId = "" then
      { response := { statusCode := 400, error := some "sessionId is required" }
        store := store, upstreamCalls := 0 }
    else
      match getL2Session env.now store sessionId with
      | .error e =>
        { response := { statusCode := 500, error := some "Failed to get quote status",
                        details := some e }
          store := store, upstreamCalls := 0 }
      | .ok session =>
        let base : HttpResponse := { statusCode := 200, status := some session.status }
        let resp :=
          if session.status = "pending_answers" ∧ session.l1Response ≠ none then
            { base with questions := some (formatQuestionsForWebApp
                ((session.l1Response.map (·.questions)).getD [])) }
          else if session.status = "completed" ∧ session.finalRates ≠ none then
            { base with fees := session.finalRates.map (·.fees)
                        totalBuyerFee := session.finalRates.map (·.totalBuyerFee)
                        totalSellerFee := session.finalRates.map (·.totalSellerFee) }
          else base
        { response := resp, store := store, upstreamCalls := 0 }

/-- Request body of the `updatePages` action (`pageNumbers` is a JSON
object whose slot values are arbitrary JS values). -/
structure UpdatePagesBody where
  sessionId : Option String := none
  pageNumbers : Option (List (String × JSVal)) := none
  deriving DecidableEq

/-- Embedding of `updatePagesV2` of `handler.js` up to its own
`getL2Session` call and the steps after it; the same dead 404 branch
applies. -/
def updatePagesV2 (env : HandlerEnv) (store : Store) (body : UpdatePagesBody) :
    HandlerOutcome :=
  let bad (msg : String) : HandlerOutcome :=
    { response := { statusCode := 400, error := some msg }
      store := store, upstreamCalls := 0 }
  match body.sessionId, body.pageNumbers with
  | some sessionId, some pageNumbers0 =>
    if sessionId = "" then bad "sessionId and pageNumbers are required"
    else if !(optTruthy (lookupAns pageNumbers0 "deedPages")) ∨
            !(optTruthy (lookupAns pageNumbers0 "mortgagePages")) then
      bad "Both deedPages and mortgagePages are required"
    else
      let deedPages := (lookupAns pageNumbers0 "deedPages").bind jsParseInt
      let mortgagePages := (lookupAns pageNumbers0 "mortgagePages").bind jsParseInt
      let deedConsideration := considerationFieldOf pageNumbers0 "deedConsideration"
      let mortgageConsideration := considerationFieldOf pageNumbers0 "mortgageConsideration"
      match deedPages, mortgagePages with
      | some dp, some mp =>
        if dp < 1 ∨ mp < 1 then bad "Invalid page numbers"
        else
          match getL2Session env.now store sessionId with
          | .error e =>
            { response := { statusCode := 500,
                            error := some "Failed to update page numbers",
                            details := some e }
              store := store, upstreamCalls := 0 }
          | .ok session =>
            if session.status = "completed" then
              { response := { statusCode := 400,
                              error := some "This quote has already been completed" }
                store := store, upstreamCalls := 0 }
            else
              let pn : PageNumbers :=
                { deedPages := some dp, mortgagePages := some mp
                  deedConsideration := deedConsideration
                  mortgageConsideration := mortgageConsideration }
              let store1 := storePageNumbers env.now store sessionId pn
              match env.l1Exchange with
              | .error e =>
                { response := { statusCode := 500,
                                error := some "Failed to update page numbers",
                                details := some e }
                  store := store1, upstreamCalls := 1 }
              | .ok l1Result =>
                let store2 := storeL1ResponseData env.now store1 sessionId l1Result
                { response := { statusCode := 200, status := some "pending_answers",
                                message := some
                                  "Page numbers updated, please answer the following questions"
                                questions := some
                                  (formatQuestionsForWebApp l1Result.questions) }
                  store := store2, upstreamCalls := 1 }
      | _, _ => bad "Invalid page numbers"
  | _, _ => bad "sessionId and pageNumbers are required"

end HandlerV2

namespace Deploy

open QuestionParser (strIncludes)

/-- One `FEE_PAYMENT` of the quick-quote response in `deploy.sh`
(`explicitArray: true` single-element wrappers are collapsed; the
`SequenceNumber` attribute and the amount fields are taken as present,
as the extraction code indexes them unconditionally). -/
structure DPayment where
  seqNumber : String := ""
  paidByType : String := ""
  actual : String := ""
  estimated : String := ""
  deriving DecidableEq, Repr

/-- One `FEE` of the quick-quote response. -/
structure DFee where
  xlinkLabel : Option String := none
  feeDescription : String := ""
  disclosureItemName : String := ""
  feePayments : List DPayment := []
  deriving DecidableEq, Repr

/-- One row of the composed quick-quote fee list.  Amounts are `JSVal`
because the source mixes numbers (`buyerFee || '0.0'` when nonzero) and
strings in the same slot; rows built by spreading a
`{BuyerFee, SellerFee}` pair have no `DisclosureItemName` property. -/
structure FeeRow where
  feeDescription : String := ""
  disclosureItemName : Option String := none
  buyerFee : JSVal := .vStr "0.0"
  sellerFee : JSVal := .vStr "0.0"
  deriving DecidableEq, Repr

/-- Embedding of `getPaymentAmount` of `findSpecificFee` in `deploy.sh`:
`parseFloat(...) || 0.0` maps both NaN and a parsed 0 to 0. -/
def getPaymentAmount (p : DPayment) (useEstimated : Bool) : ℚ :=
  ((if useEstimated then jsParseFloatStr p.estimated else jsParseFloatStr p.actual)).getD 0

/-- The buyer amount of a labelled fee: the sequence-3 payment's estimated
amount when present, else the sequence-1 payment's actual amount; when
neither payment exists the source dereferences `undefined` and throws,
modelled as `none`. -/
def buyerAmountOf (ps : List DPayment) : Option ℚ :=
  match ps.find? (fun p => p.seqNumber = "3") with
  | some p => some (getPaymentAmount p true)
  | none => (ps.find? (fun p => p.seqNumber = "1")).map (fun p => getPaymentAmount p false)

/-- The seller amount of a labelled fee (sequence 4 estimated, else
sequence 2 actual). -/
def sellerAmountOf (ps : List DPayment) : Option ℚ :=
  match ps.find? (fun p => p.seqNumber = "4") with
  | some p => some (getPaymentAmount p true)
  | none => (ps.find? (fun p => p.seqNumber = "2")).map (fun p => getPaymentAmount p false)

/-- The `amount || '0.0'` slot value of `findSpecificFee`. -/
def jsAmount (q : ℚ) : JSVal :=
  if q ≠ 0 then .vNum q else .vStr "0.0"

/-- Embedding of `findSpecificFee` of `deploy.sh`; `none` models the
throw on a labelled fee without the expected payments. -/
def findSpecificFee (feeArray : List DFee) (label : String) : Option (JSVal × JSVal) :=
  match feeArray.find? (fun fee => fee.xlinkLabel = some label) with
  | none => some (.vStr "0.0", .vStr "0.0")
  | some feeObj => do
    let b ← buyerAmountOf feeObj.feePayments
    let s ← sellerAmountOf feeObj.feePayments
    some (jsAmount b, jsAmount s)

/-- Embedding of `extractRecordingFees` of `deploy.sh`. -/
def extractRecordingFees (feeArray : List DFee) : List FeeRow :=
  (feeArray.filter (fun fee => fee.feeDescription = "RecordingFee")).map (fun fee =>
    { feeDescription := fee.feeDescription
      disclosureItemName := some fee.disclosureItemName
      buyerFee := match fee.feePayments.find? (fun p => p.paidByType = "Buyer") with
        | some p => .vStr p.actual
        | none => .vStr "0.0"
      sellerFee := match fee.feePayments.find? (fun p => p.paidByType = "Seller") with
        | some p => .vStr p.actual
        | none => .vStr "0.0" })

/-- Embedding of `extractTransferTaxFees` of `deploy.sh`. -/
def extractTransferTaxFees (feeArray : List DFee) : List FeeRow :=
  (feeArray.filter (fun fee => fee.feeDescription = "TransferTax")).map (fun fee =>
    { feeDescription := fee.feeDescription
      disclosureItemName := some fee.disclosureItemName
      buyerFee := match fee.feePayments.find? (fun p => p.paidByType = "Buyer") with
        | some p => .vStr p.actual
        | none => .vStr "0.0"
      sellerFee := match fee.feePayments.find? (fun p => p.paidByType = "Seller") with
        | some p => .vStr p.actual
        | none => .vStr "0.0" })

/-- The `stateFeeTitles` display-name table of `deploy.sh`. -/
def stateFeeTitles : List (String × String) :=
  [ ("SettlementFee", "Title - Settlement Fee")
  , ("ShortFormPolicy", "Title - Short Form Policy")
  , ("CountersignLender", "Title - Countersign Lender")
  , ("CountersignOwner", "Title - Countersign Owner")
  , ("NotaryFee", "Title - Notary Fee")
  , ("JudgementSearch", "Title - Judgement Search")
  , ("AttorneyFee", "Title - Attorney Fee")
  , ("AbstractorTitleSearch", "Title - Abstractor Title Search")
  , ("SearchFee", "Title - Search Fee")
  , ("ExamFee", "Title - Exam Fee")
  , ("AbstractCopyFee", "Title - Abstract Copy Fee")
  , ("AbstractStorageFee", "Title - Abstract Storage Fee")
  , ("TitleInsuranceBinderFee", "Title - Title Insurance Binder Fee")
  , ("TitleCertFee", "Title - Title Cert Fee")
  , ("ErecordingFee", "Title - E-recording Fee")
  , ("Rec/SvcFee", "Title - Recording Service Fee")
  , ("TaxReview", "Title - Tax Review")
  , ("TitleCertOpinion", "Title - Title Cert Opinion")
  , ("CPLBuyer", "Title - CPL Buyer")
  , ("CPLSeller", "Title - CPL Seller") ]

/-- The display title `stateFeeTitles[feeKey] || feeKey`. -/
def titleOfKey (key : String) : String :=
  match (stateFeeTitles.find? (fun p => p.1 = key)).map (·.2) with
  | some t => t
  | none => key

/-- A state fee schedule record (`FNTEFees` item), or `null`. -/
def StateFeeData := Option (List (String × JSVal))

/-- The value `(stateFeeData?.K || 0).toString()` used for the settlement-fee line. -/
def settlementVal (sfd : StateFeeData) (key : String) : String :=
  match sfd.bind (fun l => lookupAns l key) with
  | some v => if v.truthy then jsToString v else "0"
  | none => "0"

/-- The rows the `stateFeeData` `forEach` pushes for one key (the body of
that loop: skipped keys and null/zero values push nothing, the refinance
variant of the abstractor search substitutes the non-refi title). -/
def stateFeeRowsOfKey (refiStrict : Bool) (p : String × JSVal) : List FeeRow :=
  if p.1 = "StateCode" ∨ p.1 = "State" ∨ p.1 = "SettlementFee" ∨
     p.1 = "SettlementFeeRefi" then []
  else if p.2 = .vNull ∨ p.2 = .vNum 0 then []
  else if p.1 = "AbstractorTitleSearchREFI" ∧ refiStrict then
    [{ feeDescription := "Title - Abstractor Title Search"
       buyerFee := .vStr (jsToString p.2), sellerFee := .vStr "0.0" }]
  else if p.1 = "AbstractorTitleSearch" ∧ refiStrict then []
  else
    [{ feeDescription := titleOfKey p.1
       buyerFee := .vStr (jsToString p.2), sellerFee := .vStr "0.0" }]

/-- The row filter of the final `Refinance` exclusion in `extractFees`. -/
def keepRowOnRefi (row : FeeRow) : Bool :=
  row.feeDescription ≠ "Title - Owner\x27s Title Insurance" ∧
  row.feeDescription ≠ "Title - Sales Tax - Owner\x27s Title Insurance" ∧
  !(match row.disclosureItemName with
    | some d => strIncludes d "Assignment"
    | none => false) ∧
  !(match row.disclosureItemName with
    | some d => strIncludes d "Conveyance Deed"
    | none => false)

/-- The pure row composition of `extractFees` of `deploy.sh`, given the
four labelled policy/tax fee pairs and the recording/transfer rows. -/
def extractFeesRows (loanPurposeType postalCode : String)
    (salesContractAmount : ℚ) (stateFeeData : StateFeeData)
    (eaglePolicyFees altaLoanPolicyFees eaglePolicyTaxFees altaLoanPolicyTaxFees :
      JSVal × JSVal)
    (recordingFees0 transferTaxFees0 : List FeeRow) : List FeeRow :=
  let refiStrict := loanPurposeType = "Refinance"
  let refiWide := loanPurposeType = "Refinance" ∨ loanPurposeType = "$Refinance"
  let settlementFees : JSVal × JSVal :=
    (.vStr (settlementVal stateFeeData
        (if refiStrict then "SettlementFeeRefi" else "SettlementFee")), .vStr "0.0")
  let nyTax := "Conveyance Deed - State Transfer NY Tax"
  let recordingFees := if refiWide then
      recordingFees0.filter (fun f => f.disclosureItemName ≠ some nyTax) else recordingFees0
  let transferTaxFees := if refiWide then
      transferTaxFees0.filter (fun f => f.disclosureItemName ≠ some nyTax) else transferTaxFees0
  let extractedFees : List FeeRow :=
    [ { feeDescription := "Title - Owner\x27s Title Insurance"
        buyerFee := eaglePolicyFees.1, sellerFee := eaglePolicyFees.2 }
    , { feeDescription := "Title - Lender\x27s Title Insurance"
        buyerFee := altaLoanPolicyFees.1, sellerFee := altaLoanPolicyFees.2 }
    , { feeDescription := "Title - Settlement Fee"
        buyerFee := settlementFees.1, sellerFee := settlementFees.2 }
    , { feeDescription := "Title - Sales Tax - Owner\x27s Title Insurance"
        buyerFee := eaglePolicyTaxFees.1, sellerFee := eaglePolicyTaxFees.2 }
    , { feeDescription := "Title - Sales Tax - Lender\x27s Title Insurance"
        buyerFee := altaLoanPolicyTaxFees.1, sellerFee := altaLoanPolicyTaxFees.2 } ]
    ++ recordingFees ++ transferTaxFees
  let withAgricultural :=
    if (postalCode = "02801" ∨ postalCode = "02837") ∧
       (strLower loanPurposeType = "purchase" ∨
        strLower loanPurposeType = "cash purchase") ∧
       salesContractAmount > 450000 then
      extractedFees ++
        [{ feeDescription := "Agricultural Tax"
           buyerFee := .vStr (ratToFixed2 ((salesContractAmount - 450000) * (4 / 100)))
           sellerFee := .vStr "0.0" }]
    else extractedFees
  let withStateFees := withAgricultural ++
    (match stateFeeData with
      | none => []
      | some entries => entries.flatMap (stateFeeRowsOfKey refiStrict))
  if refiWide then withStateFees.filter keepRowOnRefi else withStateFees

/-- Embedding of `extractFees` of `deploy.sh` (the quick-quote fee
composition).  The `loanComments` argument of the source is unused by the
composition and omitted.  `none` models the function throwing (a labelled
fee without the expected payment entries); when every labelled lookup
succeeds, `extractFeesRows` composes the result exactly as the source
does. -/
def extractFees (fees : List DFee) (loanPurposeType postalCode : String)
    (salesContractAmount : ℚ) (stateFeeData : StateFeeData) : Option (List FeeRow) :=
  let refiStrict := loanPurposeType = "Refinance"
  match (if refiStrict then some (.vStr "0.0", .vStr "0.0")
          else findSpecificFee fees "FEE_POLICY_1"),
        (if refiStrict then findSpecificFee fees "FEE_POLICY_1"
          else findSpecificFee fees "FEE_POLICY_2"),
        (if refiStrict then some (.vStr "0.0", .vStr "0.0")
          else findSpecificFee fees "FEE_POLICY_1_SALES_TAX_1"),
        findSpecificFee fees "FEE_POLICY_2_SALES_TAX_1" with
  | some eaglePolicyFees, some altaLoanPolicyFees, some eaglePolicyTaxFees,
      some altaLoanPolicyTaxFees =>
    some (extractFeesRows loanPurposeType postalCode salesContractAmount stateFeeData
      eaglePolicyFees altaLoanPolicyFees eaglePolicyTaxFees altaLoanPolicyTaxFees
      (extractRecordingFees fees) (extractTransferTaxFees fees))
  | _, _, _, _ => none

end Deploy

namespace Claims

open QuestionParser

/-- The Q&A entries of a pending structure, in order (empty when any node
on the path is absent). -/
def qandaEntries (d : Option CalcRateLevel2Data) : List QandA :=
  match d with
  | none => []
  | some data =>
    match data.rateCalcRequest.bind (fun r => r.qandas.bind (·.rateCalcQandA)) with
    | none => []
    | some node => node.toList

/-- A prompted entry used as the concrete test input: `IsPrompt` is true,
the link key is `LK1`, the parameter code is `PC1`, and the current answer
is `No`. -/
def entryC1 : QandA :=
  { linkKey := some "LK1", isPrompt := some "true"
    answers := some { str := some "No" }
    param := some { paramCode := some "PC1", value := some "No" } }

/-- A pending structure holding just `entryC1`. -/
def pendC1 : CalcRateLevel2Data :=
  { rateCalcRequest := some { qandas := some { rateCalcQandA := some (.many [entryC1]) } } }

/-- C1 counterexample: an answer set keyed by the entry's parameter code
(`PC1`), exactly as the claim prescribes, changes nothing — the merged
structure is identical to the input and the prompted entry's answer is
still `No`, not the supplied `Yes` — because `mapAnswersToL2Format` looks
answers up by `lvis:LinkKey`, not by `lvis:ParamCode`. -/
theorem C1_paramCode_key_not_used :
    entryC1.isPrompt = some "true" ∧
    entryC1.param.bind (fun p => p.paramCode) = some "PC1" ∧
    lookupAns [("PC1", JSVal.vStr "Yes")] "PC1" = some (JSVal.vStr "Yes") ∧
    mapAnswersToL2Format (some pendC1) [("PC1", JSVal.vStr "Yes")] = some pendC1 ∧
    (qandaEntries (mapAnswersToL2Format (some pendC1) [("PC1", JSVal.vStr "Yes")])).map
        (fun qa => qa.answers) ≠ [some { str := some "Yes" }] := by
  refine ⟨rfl, rfl, rfl, by decide, by decide⟩

/-- C1 amended: the merge rewrites answers matched by the entry's link
key.  Every entry of the pending structure is rewritten by `updateQandA`,
and `updateQandA` overwrites the answer (and the `lvis:Param` value) of
exactly the prompted entries whose `lvis:LinkKey` is a key of the answer
set, with the stringified caller-supplied value. -/
theorem C1_merge_matches_by_link_key (ua : AnswerSet) :
    (∀ qa k v, qa.isPrompt = some "true" → qa.linkKey = some k →
      lookupAns ua k = some v →
      (updateQandA ua qa).answers = some { str := some (jsToString v) } ∧
      (updateQandA ua qa).param =
        qa.param.map (fun p => { p with value := some (jsToString v) })) ∧
    (∀ data, qandaEntries (mapAnswersToL2Format (some data) ua) =
      (qandaEntries (some data)).map (updateQandA ua)) := by
  constructor
  · intro qa k v hPrompt hKey hVal
    unfold updateQandA
    rw [hKey]
    simp only [Option.some_bind]
    rw [hVal]
    simp [hPrompt]
  · intro data
    unfold mapAnswersToL2Format qandaEntries
    rcases data with ⟨rcr, extra⟩
    rcases rcr with _ | ⟨⟨qn, e1⟩⟩
    · simp
    rcases qn with _ | ⟨⟨node, e2⟩⟩
    · simp
    rcases node with _ | node
    · simp
    rcases node with qa | l <;> simp [NodeOr.toList]

/-- Witness for the amended C1 theorem at the concrete entry: answering
under the link key `LK1` overwrites the stored answer with `Yes`. -/
theorem C1_merge_matches_by_link_key_witness :
    (updateQandA [("LK1", JSVal.vStr "Yes")] entryC1).answers =
      some { str := some (jsToString (JSVal.vStr "Yes")) } :=
  ((C1_merge_matches_by_link_key [("LK1", JSVal.vStr "Yes")]).1 entryC1 "LK1"
    (JSVal.vStr "Yes") rfl rfl rfl).1

end Claims

namespace Claims

open QuestionParser

/-- Frame condition on the optional `lvis:Param` child: everything except
`lvis:Value` is preserved. -/
def paramFramePreserved : Option ParamNode → Option ParamNode → Prop
  | none, none => True
  | some p, some p' =>
    p'.paramCode = p.paramCode ∧ p'.name = p.name ∧ p'.valueType = p.valueType ∧
    p'.extra = p.extra
  | _, _ => False

/-- Frame condition on one merged Q&A entry: every field other than the
answer slots (`lvis:Answers` and `lvis:Param → lvis:Value`) is preserved,
and an entry that is not both prompted and answered is preserved whole. -/
def mergedEntryOK (ua : AnswerSet) (qa qa' : QandA) : Prop :=
  qa'.linkKey = qa.linkKey ∧ qa'.isPrompt = qa.isPrompt ∧
  qa'.question = qa.question ∧ qa'.description = qa.description ∧
  qa'.defaultAnswer = qa.defaultAnswer ∧ qa'.optionsNode = qa.optionsNode ∧
  qa'.extra = qa.extra ∧ paramFramePreserved qa.param qa'.param ∧
  (qa.linkKey.bind (lookupAns ua) = none ∨ qa.isPrompt ≠ some "true" → qa' = qa)

/-- Frame condition on the merged structure: every node outside individual
Q&A entries — including all `extra` children, which cover the embedded
original request fragment — is preserved, and the entries correspond
pairwise under `mergedEntryOK`. -/
def mergeFrame (ua : AnswerSet) (d d' : CalcRateLevel2Data) : Prop :=
  d'.extra = d.extra ∧
  match d.rateCalcRequest, d'.rateCalcRequest with
  | none, none => d' = d
  | some rcr, some rcr' =>
    rcr'.extra = rcr.extra ∧
    (match rcr.qandas, rcr'.qandas with
     | none, none => rcr' = rcr
     | some qn, some qn' =>
       qn'.extra = qn.extra ∧
       (match qn.rateCalcQandA, qn'.rateCalcQandA with
        | none, none => qn' = qn
        | some (.one qa), some (.one qa') => mergedEntryOK ua qa qa'
        | some (.many l), some (.many l') => List.Forall₂ (mergedEntryOK ua) l l'
        | _, _ => False)
     | _, _ => False)
  | _, _ => False

/-- The per-entry update satisfies the per-entry frame condition. -/
theorem mergedEntryOK_updateQandA (ua : AnswerSet) (qa : QandA) :
    mergedEntryOK ua qa (updateQandA ua qa) := by
  unfold mergedEntryOK updateQandA
  cases hv : qa.linkKey.bind (lookupAns ua) with
  | none =>
    dsimp only
    refine ⟨rfl, rfl, rfl, rfl, rfl, rfl, rfl, ?_, fun _ => rfl⟩
    cases qa.param <;> simp [paramFramePreserved]
  | some v =>
    dsimp only
    by_cases hp : qa.isPrompt = some "true"
    · rw [if_pos hp]
      refine ⟨rfl, rfl, rfl, rfl, rfl, rfl, rfl, ?_, ?_⟩
      · cases qa.param <;> simp [paramFramePreserved]
      · rintro (h | h)
        · exact absurd h (by simp)
        · exact absurd hp h
    · rw [if_neg hp]
      refine ⟨rfl, rfl, rfl, rfl, rfl, rfl, rfl, ?_, fun _ => rfl⟩
      cases qa.param <;> simp [paramFramePreserved]

/-- C2: the merge preserves every non-answer part of the pending
structure.  `mapAnswersToL2Format` always succeeds on a (non-null)
pending structure and returns a structure that agrees with the input on
every node outside the Q&A entries (the embedded original request
fragment included, as part of the untouched `extra` children), while each
entry satisfies the per-entry frame: entries that are not both prompted
and answered are returned entirely unchanged.  The input itself is not
mutated: the embedding is a pure function of the deep-cloned input. -/
theorem C2_merge_preserves_frame (d : CalcRateLevel2Data) (ua : AnswerSet) :
    ∃ d', mapAnswersToL2Format (some d) ua = some d' ∧ mergeFrame ua d d' := by
  rcases d with ⟨rcr, extra⟩
  rcases rcr with _ | ⟨⟨qn, e1⟩⟩
  · exact ⟨⟨none, extra⟩, rfl, rfl, rfl⟩
  rcases qn with _ | ⟨⟨node, e2⟩⟩
  · exact ⟨⟨some ⟨none, e1⟩, extra⟩, rfl, rfl, rfl, rfl⟩
  rcases node with _ | node
  · exact ⟨⟨some ⟨some ⟨none, e2⟩, e1⟩, extra⟩, rfl, rfl, rfl, rfl, rfl⟩
  rcases node with qa | l
  · exact ⟨⟨some ⟨some ⟨some (.one (updateQandA ua qa)), e2⟩, e1⟩, extra⟩, rfl,
      rfl, rfl, rfl, mergedEntryOK_updateQandA ua qa⟩
  · refine ⟨⟨some ⟨some ⟨some (.many (l.map (updateQandA ua))), e2⟩, e1⟩, extra⟩, rfl,
      rfl, rfl, rfl, ?_⟩
    induction l with
    | nil => exact List.Forall₂.nil
    | cons hd tl ih => exact List.Forall₂.cons (mergedEntryOK_updateQandA ua hd) ih

end Claims

namespace Claims

open QuestionParser L1Handler XmlBuilders Mismo

/-- C6: the L1 branch decision accepts either spelling of the
rates-calculated flag.  The parsed outcome is the rates-ready variant
exactly when the calculator response carries the value "true" under the
misspelled field name (`lvis:HasCalcuatedRates`) or under the canonical
one (`lvis:HasCalculatedRates`); each field alone therefore suffices to
branch to the rates outcome. -/
theorem C6_either_flag_spelling_is_authoritative (p : ParsedResponse) :
    (parseL1Outcome p).isRates = true ↔
      ((p.lvisXML.bind (fun x => x.calculatorResponse)).bind
          (fun c => c.hasCalcuatedRates) = some "true" ∨
       (p.lvisXML.bind (fun x => x.calculatorResponse)).bind
          (fun c => c.hasCalculatedRates) = some "true") := by
  unfold parseL1Outcome
  by_cases h : hasCalculatedRatesFlag p = true
  · rw [if_pos h]
    have h2 : ((p.lvisXML.bind (fun x => x.calculatorResponse)).bind
        (fun c => c.hasCalcuatedRates) = some "true" ∨
      (p.lvisXML.bind (fun x => x.calculatorResponse)).bind
        (fun c => c.hasCalculatedRates) = some "true") := by
      unfold hasCalculatedRatesFlag at h
      simpa using h
    simp [L1Outcome.isRates, h2]
  · rw [if_neg h]
    have h2 : ¬((p.lvisXML.bind (fun x => x.calculatorResponse)).bind
        (fun c => c.hasCalcuatedRates) = some "true" ∨
      (p.lvisXML.bind (fun x => x.calculatorResponse)).bind
        (fun c => c.hasCalculatedRates) = some "true") := by
      unfold hasCalculatedRatesFlag at h
      simpa using h
    simp [L1Outcome.isRates, h2]

/-- C8 counterexample: for a Refinance request whose supplied loan amount
is 0, the `SalesContractAmount` element of the outgoing L1 request holds
the sentinel 1000 — not the supplied loan amount 0 and not the supplied
sale price 500000 — so the claim's universally quantified statement fails
at this input. -/
theorem C8_zero_loan_refinance_uses_sentinel :
    (l1SentRequest "10001" 500000 0 "Refinance" false "New York" "New York"
      "NY").1.salesContractAmount = 1000 ∧
    (1000 : ℚ) ≠ 0 ∧ (1000 : ℚ) ≠ 500000 := by
  refine ⟨by decide, by decide, by decide⟩

/-- C8 amended: for Refinance the computed sale amount is derived from
the supplied loan amount — the `SalesContractAmount` element holds the
loan amount itself when it is nonzero and the sentinel 1000 when the
supplied loan amount is 0, while the owner title-policy amount is always
the raw loan amount; for every other transaction kind both the
`SalesContractAmount` element and the owner title-policy amount hold the
supplied sale price. -/
theorem C8_refinance_sale_amount_from_loan (postalCode : String)
    (salesContractAmount noteAmount : ℚ) (forceL2 : Bool)
    (city county state : String) :
    ((noteAmount ≠ 0 →
      (l1SentRequest postalCode salesContractAmount noteAmount "Refinance" forceL2
        city county state).1.salesContractAmount = noteAmount) ∧
     (noteAmount = 0 →
      (l1SentRequest postalCode salesContractAmount noteAmount "Refinance" forceL2
        city county state).1.salesContractAmount = 1000) ∧
     (l1SentRequest postalCode salesContractAmount noteAmount "Refinance" forceL2
        city county state).2.ownerPolicyAmount = noteAmount) ∧
    (∀ lpt, lpt ≠ "Refinance" →
      (l1SentRequest postalCode salesContractAmount noteAmount lpt forceL2
        city county state).1.salesContractAmount = salesContractAmount ∧
      (l1SentRequest postalCode salesContractAmount noteAmount lpt forceL2
        city county state).2.ownerPolicyAmount = salesContractAmount) := by
  unfold l1SentRequest prepareL1Amounts buildRateCalcRequestXML titleBlockAmounts
  refine ⟨⟨fun h0 => ?_, fun h0 => ?_, ?_⟩, fun lpt hlpt => ⟨?_, ?_⟩⟩ <;>
    simp_all

/-- Witness for the amended C8 theorem: a Refinance with sale price
500000 and loan amount 400000 sends `SalesContractAmount` 400000, and a
Purchase with the same inputs sends 500000. -/
theorem C8_refinance_sale_amount_from_loan_witness :
    (l1SentRequest "10001" 500000 400000 "Refinance" false "New York"
      "New York" "NY").1.salesContractAmount = 400000 ∧
    (l1SentRequest "10001" 500000 400000 "Purchase" false "New York"
      "New York" "NY").1.salesContractAmount = 500000 :=
  ⟨(C8_refinance_sale_amount_from_loan "10001" 500000 400000 false
      "New York" "New York" "NY").1.1 (by decide),
   ((C8_refinance_sale_amount_from_loan "10001" 500000 400000 false
      "New York" "New York" "NY").2 "Purchase" (by decide)).1⟩

end Claims

namespace Claims

open QuestionParser SessionManager HandlerV2 L2Handler Mismo

/-- A handler environment whose clock is 100; the upstream exchanges are
never reached on the paths the C3/C4 theorems take. -/
def envC : HandlerEnv := { now := 100 }

/-- A session that expired at tick 5 (its `ttl` is in the past of
`envC.now`). -/
def expiredSession : Session := { ttl := 5 }

/-- C3: the code answers 500, not 404, for an unknown or expired session.
`getL2Session` throws (`'Session not found'` / `'Session has expired'`)
instead of returning a null session, so the `if (!session)` 404 branches
of `submitAnswersV2`, `getQuoteStatusV2` and `updatePagesV2` are dead
code and the surrounding `catch` blocks answer HTTP 500 with the throw
message as `details`.  Evaluated here on an empty store and on a store
holding only an expired session.  The `submit` request body naming an
unknown session is `submitBodyC3`. -/
def submitBodyC3 : SubmitBody :=
  { sessionId := some "no-such-session", answers := some [("q1", JSVal.vStr "x")] }

/-- The `status` request body used by the C3 theorem. -/
def statusBodyC3 : StatusBody := { sessionId := some "no-such-session" }

/-- The `updatePages` request body used by the C3 theorem. -/
def updateBodyC3 : UpdatePagesBody :=
  { sessionId := some "no-such-session"
    pageNumbers := some [("deedPages", JSVal.vNum 3), ("mortgagePages", JSVal.vNum 15)] }

/-- The `submit` request body naming the expired session. -/
def submitBodyExpired : SubmitBody :=
  { sessionId := some "expired-session", answers := some [("q1", JSVal.vStr "x")] }

theorem C3_unknown_session_answers_500 :
    (submitAnswersV2 envC [] submitBodyC3).response.statusCode = 500 ∧
    (submitAnswersV2 envC [] submitBodyC3).response.details = some "Session not found" ∧
    (getQuoteStatusV2 envC [] statusBodyC3).response.statusCode = 500 ∧
    (updatePagesV2 envC [] updateBodyC3).response.statusCode = 500 ∧
    (submitAnswersV2 envC [("expired-session", expiredSession)]
      submitBodyExpired).response.statusCode = 500 ∧
    (submitAnswersV2 envC [("expired-session", expiredSession)]
      submitBodyExpired).response.details = some "Session has expired" := by
  refine ⟨rfl, rfl, rfl, by decide, rfl, rfl⟩

/-- The stored final rates of the completed test session. -/
def finalRatesC4 : L2Result :=
  { fees := [{ feeDescription := "Title - Settlement Fee",
               disclosureItemName := "",
               buyerFee := "350.00", sellerFee := "0.00" }],
    totalBuyerFee := "350.00", totalSellerFee := "0.00" }

/-- A session already in status `completed` with stored final rates. -/
def completedSession : Session :=
  { status := "completed", ttl := 0, finalRates := some finalRatesC4 }

/-- C4 counterexample: a repeated `submit` against a completed session
does answer with the stored fees and performs no upstream call, but the
response is an HTTP 400 error (`'This quote has already been completed'`),
not the non-error response the claim requires. -/
theorem C4_repeat_submit_is_http_400 :
    (submitAnswersV2 envC [("done-session", completedSession)]
        { sessionId := some "done-session",
          answers := some [("q1", JSVal.vStr "x")] }).response.statusCode = 400 ∧
    (submitAnswersV2 envC [("done-session", completedSession)]
        { sessionId := some "done-session",
          answers := some [("q1", JSVal.vStr "x")] }).response.error =
      some "This quote has already been completed" := by
  exact ⟨rfl, rfl⟩

/-- C4 amended: a repeated `submit` against a session in status
`completed` performs no new upstream call, leaves the store unchanged,
and answers HTTP 400 with the already-completed error message carrying
the stored fee rows — an error-shaped response rather than the plain
repeat of the original success response. -/
theorem C4_completed_submit_no_upstream_call (env : HandlerEnv) (store : Store)
    (sid : String) (s : Session) (ans : AnswerSet) (hsid : sid ≠ "")
    (hget : getL2Session env.now store sid = .ok s)
    (hdone : s.status = "completed") :
    (submitAnswersV2 env store
      { sessionId := some sid, answers := some ans }).response.statusCode = 400 ∧
    (submitAnswersV2 env store
      { sessionId := some sid, answers := some ans }).response.error =
        some "This quote has already been completed" ∧
    (submitAnswersV2 env store
      { sessionId := some sid, answers := some ans }).response.fees =
        s.finalRates.map (fun r => r.fees) ∧
    (submitAnswersV2 env store
      { sessionId := some sid, answers := some ans }).store = store ∧
    (submitAnswersV2 env store
      { sessionId := some sid, answers := some ans }).upstreamCalls = 0 := by
  unfold submitAnswersV2
  simp only [hget, hsid, hdone]
  simp

/-- Witness for the amended C4 theorem at the concrete completed session:
the 400 response carries the stored fee rows and no upstream call runs. -/
theorem C4_completed_submit_no_upstream_call_witness :
    (submitAnswersV2 envC [("done-session", completedSession)]
        { sessionId := some "done-session",
          answers := some [("q1", JSVal.vStr "x")] }).response.fees =
      completedSession.finalRates.map (fun r => r.fees) ∧
    (submitAnswersV2 envC [("done-session", completedSession)]
        { sessionId := some "done-session",
          answers := some [("q1", JSVal.vStr "x")] }).upstreamCalls = 0 :=
  ⟨(C4_completed_submit_no_upstream_call envC [("done-session", completedSession)]
      "done-session" completedSession [("q1", JSVal.vStr "x")]
      (by decide) rfl rfl).2.2.1,
   (C4_completed_submit_no_upstream_call envC [("done-session", completedSession)]
      "done-session" completedSession [("q1", JSVal.vStr "x")]
      (by decide) rfl rfl).2.2.2.2⟩

end Claims

namespace Claims

open QuestionParser L1Handler L2Handler Mismo

/-- A `LOAN` node whose `FEE_INFORMATION` is present but whose `FEES`
fee-collection child is missing. -/
def loanMissingFees : LoanNode :=
  { feeInformation := some { fees := none }, loanComments := none }

/-- A `MESSAGE` node complete down to `loanMissingFees`. -/
def messageMissingFees : MessageNode :=
  { dealSets := some { dealSet := some { deals := some { deal := some { loans := some { loan := some loanMissingFees } } } } } }

/-- The `lvis:MISMO_XML` node wrapping `messageMissingFees`. -/
def mismoMissingFees : MismoNode :=
  .one { message := some (.one messageMissingFees) }

/-- A final (L2) response that is structurally complete down to
`FEE_INFORMATION` but is missing the `FEES` fee-collection node. -/
def l2ResponseMissingFees : ParsedResponse :=
  { lvisXML := some { calculatorResponse := some { mismoXML := some mismoMissingFees } } }

/-- An L1 rates response (the canonical rates flag is "true") that is
missing the `FEES` node in the same way. -/
def l1ResponseMissingFees : ParsedResponse :=
  { lvisXML := some { calculatorResponse := some { hasCalculatedRates := some "true", mismoXML := some mismoMissingFees } } }

/-- C5 counterexample: a structurally missing fee node is silently
defaulted, not surfaced as an error.  On the L2 response missing its
`FEES` node, `extractFeesFromL2Response` returns the empty fee list and
the handler's response processing completes successfully with zero
totals; on the L1 rates response missing its `FEES` node, `parseFees`
returns the empty list and the outcome is still the rates variant with an
empty fee list.  No `MalformedUpstreamResponse`/502-class failure exists
anywhere in these code paths — the functions are total and never produce
an error value. -/
theorem C5_missing_fee_node_defaults_to_empty :
    extractFeesFromL2Response l2ResponseMissingFees = [] ∧
    processL2Response l2ResponseMissingFees =
      { hasCalculatedRates := true, fees := [], totalBuyerFee := "0.00",
        totalSellerFee := "0.00", loanCommentText := "" } ∧
    parseFees l1ResponseMissingFees = [] ∧
    parseL1Outcome l1ResponseMissingFees = .rates [] [] := by
  refine ⟨rfl, rfl, rfl, ?_⟩
  unfold parseL1Outcome
  rw [if_pos (by decide)]
  rfl

/-- C5 amended: when the expected fee node is structurally missing, both
parsers return the empty fee list instead of raising any error — for
every L2 response whose optional-chained fee path is absent
`extractFeesFromL2Response` yields `[]` and the processed result is a
success record with empty fees, and for every L1 response whose strict
fee path is absent `parseFees` yields `[]` (the `catch` swallows the
throw).  The only fallbacks that are questions of defaults rather than
response shape remain the page counts and consideration amounts. -/
theorem C5_missing_node_yields_empty_list (p q : ParsedResponse)
    (hp : (l2LoanNode p).bind (fun loan => loan.feeInformation.bind
        (fun fi => fi.fees.bind (fun fs => fs.fee))) = none)
    (hq : l1FeesNode q = none) :
    extractFeesFromL2Response p = [] ∧
    (processL2Response p).fees = [] ∧
    parseFees q = [] := by
  have hext : extractFeesFromL2Response p = [] := by
    unfold extractFeesFromL2Response
    rw [hp]
  refine ⟨hext, ?_, ?_⟩
  · unfold processL2Response
    rw [hext]
    rfl
  · unfold parseFees
    rw [hq]

/-- Witness for the amended C5 theorem at the concrete malformed
responses. -/
theorem C5_missing_node_yields_empty_list_witness :
    extractFeesFromL2Response l2ResponseMissingFees = [] ∧
    (processL2Response l2ResponseMissingFees).fees = [] ∧
    parseFees l1ResponseMissingFees = [] :=
  C5_missing_node_yields_empty_list l2ResponseMissingFees l1ResponseMissingFees rfl rfl

end Claims

namespace Claims

open QuestionParser SessionManager HandlerV2

/-- Folding an error-collecting step from any accumulator appends the
concatenation of all per-element results. -/
theorem foldl_append_collect {α β : Type} (f : α → List β) :
    ∀ (l : List α) (acc : List β),
      l.foldl (fun a x => a ++ f x) acc = acc ++ l.flatMap f := by
  intro l
  induction l with
  | nil => intro acc; simp
  | cons h t ih => intro acc; simp [ih, List.append_assoc]

/-- The error list of `validateAnswers` is the in-order concatenation of
every question's violations. -/
theorem validateAnswers_errors_eq (questions : List FormattedQuestion)
    (answers : AnswerSet) :
    (validateAnswers questions answers).errors =
      questions.flatMap (fun q => validateOneQuestion q (q.id.bind (lookupAns answers))) := by
  unfold validateAnswers
  simp [foldl_append_collect]

/-- Any violation of any listed question appears in the result of
`validateAnswers`. -/
theorem mem_validateAnswers_of_mem (questions : List FormattedQuestion)
    (answers : AnswerSet) (q : FormattedQuestion) (hq : q ∈ questions)
    (e : VError) (he : e ∈ validateOneQuestion q (q.id.bind (lookupAns answers))) :
    e ∈ (validateAnswers questions answers).errors := by
  rw [validateAnswers_errors_eq]
  exact List.mem_flatMap.mpr ⟨q, hq, he⟩

/-- Every violation recorded by `validateOneQuestion` carries the
question's own identifier. -/
theorem validateOneQuestion_questionId (q : FormattedQuestion) (ans : Option JSVal)
    (e : VError) (he : e ∈ validateOneQuestion q ans) : e.questionId = q.id := by
  unfold validateOneQuestion at he
  repeat'
    first
    | (exact absurd he (List.not_mem_nil e))
    | (simp only [List.mem_singleton] at he; subst he; rfl)
    | (rw [List.mem_append] at he; rcases he with he | he)
    | split at he
    | (dsimp only at he)

/-- Every question produced by the formatter is required, has `min`
either absent or 0, and has no `max` or `maxLength` bound. -/
theorem formatter_fields (raws : List RawQuestion) (q : FormattedQuestion)
    (hq : q ∈ formatQuestionsForWebApp raws) :
    q.required = true ∧ (q.min = none ∨ q.min = some 0) ∧
    q.max = none ∧ q.maxLength = none := by
  rcases List.mem_map.mp hq with ⟨r, _, rfl⟩
  unfold formatOneQuestion
  split
  · exact ⟨rfl, Or.inl rfl, rfl, rfl⟩
  · split
    · split
      · exact ⟨rfl, Or.inr rfl, rfl, rfl⟩
      · split
        · exact ⟨rfl, Or.inl rfl, rfl, rfl⟩
        · split
          · exact ⟨rfl, Or.inl rfl, rfl, rfl⟩
          · exact ⟨rfl, Or.inl rfl, rfl, rfl⟩
    · exact ⟨rfl, Or.inl rfl, rfl, rfl⟩

/-- A required question whose answer is absent, the boolean `false`, or
the empty string gets exactly the required-question violation. -/
theorem validateOneQuestion_required_missing (q : FormattedQuestion)
    (hreq : q.required = true) (ans : Option JSVal)
    (h : ans = none ∨ ans = some (JSVal.vBool false) ∨ ans = some (JSVal.vStr "")) :
    validateOneQuestion q ans =
      [{ questionId := q.id, error := "This question is required" }] := by
  rcases h with rfl | rfl | rfl <;> simp [validateOneQuestion, hreq, JSVal.truthy]

end Claims

namespace Claims

open QuestionParser SessionManager HandlerV2

/-- On the validation-failure path, `submitAnswersV2` returns the 400
response carrying the full error list and leaves the store untouched. -/
theorem submit_invalid_branch (env : HandlerEnv) (store : Store) (sid : String)
    (session : Session) (l1r : L1Result) (answers : AnswerSet)
    (hsid : sid ≠ "")
    (hget : getL2Session env.now store sid = .ok session)
    (hst : session.status ≠ "completed")
    (hl1 : session.l1Response = some l1r)
    (hcalc : l1r.calcRateLevel2Data ≠ none)
    (hval : (validateAnswers (formatQuestionsForWebApp l1r.questions) answers).valid
      = false) :
    submitAnswersV2 env store { sessionId := some sid, answers := some answers } =
      { response :=
          { statusCode := 400
            error := some "Invalid answers provided"
            validationErrors :=
              (validateAnswers (formatQuestionsForWebApp l1r.questions) answers).errors }
        store := store, upstreamCalls := 0 } := by
  unfold submitAnswersV2
  try dsimp only
  rw [if_neg hsid, hget]
  try dsimp only
  rw [if_neg hst, hl1]
  try dsimp only
  rw [if_neg hcalc]
  try dsimp only
  rw [hval]
  rfl

/-- C7: `validateAnswers` reports every violation (no short-circuit), each
carrying the offending question's identifier, and a submit whose answers
fail validation is rejected with HTTP 400 listing the itemized errors
while the session store is left unchanged.  In particular a required
question with no answer yields its `'This question is required'` entry. -/
theorem C7_validation_complete_and_submit_rejects :
    (∀ (questions : List FormattedQuestion) (answers : AnswerSet),
      (validateAnswers questions answers).errors =
        questions.flatMap
          (fun q => validateOneQuestion q (q.id.bind (lookupAns answers))) ∧
      ∀ e ∈ (validateAnswers questions answers).errors,
        ∃ q ∈ questions, e.questionId = q.id ∧
          e ∈ validateOneQuestion q (q.id.bind (lookupAns answers))) ∧
    (∀ (env : HandlerEnv) (store : Store) (sid : String) (session : Session)
        (l1r : L1Result) (answers : AnswerSet),
      sid ≠ "" →
      getL2Session env.now store sid = .ok session →
      session.status ≠ "completed" →
      session.l1Response = some l1r →
      l1r.calcRateLevel2Data ≠ none →
      (∃ q ∈ formatQuestionsForWebApp l1r.questions,
        q.id.bind (lookupAns answers) = none) →
      (submitAnswersV2 env store
        { sessionId := some sid, answers := some answers }).response.statusCode = 400 ∧
      (submitAnswersV2 env store
        { sessionId := some sid, answers := some answers }).response.error =
          some "Invalid answers provided" ∧
      (∀ q ∈ formatQuestionsForWebApp l1r.questions,
        q.id.bind (lookupAns answers) = none →
        ({ questionId := q.id, error := "This question is required" } : VError) ∈
          (submitAnswersV2 env store
            { sessionId := some sid,
              answers := some answers }).response.validationErrors) ∧
      (submitAnswersV2 env store
        { sessionId := some sid, answers := some answers }).store = store) := by
  constructor
  · intro questions answers
    refine ⟨validateAnswers_errors_eq questions answers, ?_⟩
    intro e he
    rw [validateAnswers_errors_eq] at he
    rcases List.mem_flatMap.mp he with ⟨q, hq, hmem⟩
    exact ⟨q, hq, validateOneQuestion_questionId q _ e hmem, hmem⟩
  · intro env store sid session l1r answers hsid hget hst hl1 hcalc hmiss
    obtain ⟨q0, hq0, hmiss0⟩ := hmiss
    have hreq0 : q0.required = true := (formatter_fields _ _ hq0).1
    have herr : ({ questionId := q0.id, error := "This question is required" } : VError)
        ∈ (validateAnswers (formatQuestionsForWebApp l1r.questions) answers).errors := by
      refine mem_validateAnswers_of_mem _ _ _ hq0 _ ?_
      rw [hmiss0, validateOneQuestion_required_missing q0 hreq0 none (Or.inl rfl)]
      exact List.mem_singleton_self _
    have hval : (validateAnswers (formatQuestionsForWebApp l1r.questions) answers).valid
        = false := by
      unfold validateAnswers at herr ⊢
      simp only [decide_eq_false_iff_not]
      intro hlen
      rw [List.length_eq_zero] at hlen
      rw [hlen] at herr
      exact List.not_mem_nil _ herr
    rw [submit_invalid_branch env store sid session l1r answers hsid hget hst hl1
      hcalc hval]
    refine ⟨rfl, rfl, ?_, rfl⟩
    intro q hq hqmiss
    refine mem_validateAnswers_of_mem _ _ _ hq _ ?_
    rw [hqmiss, validateOneQuestion_required_missing q (formatter_fields _ _ hq).1 none
      (Or.inl rfl)]
    exact List.mem_singleton_self _

end Claims

namespace Claims

open QuestionParser SessionManager HandlerV2

/-- The raw L2 question used by the C7 witness. -/
def rawQC7 : RawQuestion :=
  { linkKey := some "q1", questionText := some "Is the property vacant land?"
    paramCode := some "P1", valueType := some "STRING" }

/-- The stored L1 result of the C7 witness session (one pending question
and a pending structure to echo). -/
def l1rC7 : L1Result :=
  { typ := "questions", hasCalculatedRates := false, questions := [rawQC7]
    calcRateLevel2Data := some {} }

/-- The C7 witness session, awaiting answers. -/
def sessC7 : Session :=
  { status := "pending_answers", ttl := 0, l1Response := some l1rC7 }

/-- The C7 witness store. -/
def storeC7 : Store := [("sid7", sessC7)]

/-- The C7 witness submit body: an empty answer set, so the required
question `q1` has no answer. -/
def subBodyC7 : SubmitBody := { sessionId := some "sid7", answers := some [] }

/-- Witness for C7 at the concrete session: the submit is rejected with
400, the itemized required-question error for `q1` is listed, and the
store is unchanged. -/
theorem C7_validation_complete_and_submit_rejects_witness :
    (submitAnswersV2 envC storeC7 subBodyC7).response.statusCode = 400 ∧
    ({ questionId := some "q1", error := "This question is required" } : VError) ∈
      (submitAnswersV2 envC storeC7 subBodyC7).response.validationErrors ∧
    (submitAnswersV2 envC storeC7 subBodyC7).store = storeC7 := by
  have h := C7_validation_complete_and_submit_rejects.2 envC storeC7 "sid7" sessC7
    l1rC7 [] (by decide) rfl (by decide) rfl (by decide)
    ⟨formatOneQuestion rawQC7, List.mem_singleton_self _, rfl⟩
  exact ⟨h.1, h.2.2.1 (formatOneQuestion rawQC7) (List.mem_singleton_self _) rfl, h.2.2.2⟩

/-- The two singleton messages in question can never coincide: the
invalid-option message is strictly longer than the required message. -/
theorem invalid_option_ne_required (t : String) :
    "Invalid option. Must be one of: " ++ t ≠ "This question is required" := by
  intro h
  have hlen := congrArg String.length h
  rw [String.length_append] at hlen
  have h32 : ("Invalid option. Must be one of: " : String).length = 32 := by decide
  have h25 : ("This question is required" : String).length = 25 := by decide
  omega

/-- C10: every normalized question is marked required; the required-answer
check flags any falsy non-zero answer as missing, so a required question
answered with the boolean `false` or with the empty string still gets the
`'This question is required'` violation, while the numeric answer 0 never
does for a formatter-produced question. -/
theorem C10_required_check_treats_falsy_as_missing :
    (∀ (raws : List RawQuestion) (q : FormattedQuestion),
      q ∈ formatQuestionsForWebApp raws → q.required = true) ∧
    (∀ (questions : List FormattedQuestion) (answers : AnswerSet)
        (q : FormattedQuestion), q ∈ questions → q.required = true →
      q.id.bind (lookupAns answers) = some (JSVal.vBool false) →
      ({ questionId := q.id, error := "This question is required" } : VError) ∈
        (validateAnswers questions answers).errors) ∧
    (∀ (questions : List FormattedQuestion) (answers : AnswerSet)
        (q : FormattedQuestion), q ∈ questions → q.required = true →
      q.id.bind (lookupAns answers) = some (JSVal.vStr "") →
      ({ questionId := q.id, error := "This question is required" } : VError) ∈
        (validateAnswers questions answers).errors) ∧
    (∀ (raws : List RawQuestion) (q : FormattedQuestion),
      q ∈ formatQuestionsForWebApp raws →
      ({ questionId := q.id, error := "This question is required" } : VError) ∉
        validateOneQuestion q (some (JSVal.vNum 0))) := by
  refine ⟨fun raws q hq => (formatter_fields raws q hq).1, ?_, ?_, ?_⟩
  · intro questions answers q hq hreq hans
    refine mem_validateAnswers_of_mem _ _ _ hq _ ?_
    rw [hans, validateOneQuestion_required_missing q hreq _ (Or.inr (Or.inl rfl))]
    exact List.mem_singleton_self _
  · intro questions answers q hq hreq hans
    refine mem_validateAnswers_of_mem _ _ _ hq _ ?_
    rw [hans, validateOneQuestion_required_missing q hreq _ (Or.inr (Or.inr rfl))]
    exact List.mem_singleton_self _
  · intro raws q hq hmem
    obtain ⟨hreq, hmin, hmax, hml⟩ := formatter_fields raws q hq
    unfold validateOneQuestion at hmem
    have hrm : (q.required && (!(JSVal.vNum 0).truthy && decide (JSVal.vNum 0 ≠ JSVal.vNum 0))) = false := by
      simp
    rw [hrm] at hmem
    simp only [if_false, Bool.false_eq_true] at hmem
    by_cases hsel : q.qType = "select"
    · simp only [hsel, if_true, if_pos rfl] at hmem
      split at hmem
      · simp only [List.mem_singleton] at hmem
        have := congrArg VError.error hmem
        simp only at this
        exact invalid_option_ne_required _ this.symm
      · exact List.not_mem_nil _ hmem
    · simp only [hsel, if_neg hsel, if_false] at hmem
      by_cases hnum : q.qType = "number" ∨ q.qType = "currency"
      · rw [if_pos hnum] at hmem
        have hj : jsToNumber (JSVal.vNum 0) = some 0 := rfl
        rw [hj] at hmem
        rcases hmin with hm | hm <;>
          rw [hm, hmax] at hmem <;> simp at hmem
      · rw [if_neg hnum] at hmem
        by_cases htext : q.qType = "text"
        · rw [if_pos htext, hml] at hmem
          split at hmem
          · simp_all
          · exact List.not_mem_nil _ hmem
        · rw [if_neg htext] at hmem
          exact List.not_mem_nil _ hmem

end Claims

namespace Claims

open QuestionParser

/-- The raw currency question used by the C10 witness. -/
def rawQC10 : RawQuestion :=
  { linkKey := some "qb", questionText := some "Escrow amount?"
    paramCode := some "P2", valueType := some "CURRENCY" }

/-- Witness for C10 at a concrete currency question: answering `false` or
the empty string yields the required-question violation, answering the
number 0 does not. -/
theorem C10_required_check_treats_falsy_as_missing_witness :
    ({ questionId := some "qb", error := "This question is required" } : VError) ∈
      (validateAnswers [formatOneQuestion rawQC10]
        [("qb", JSVal.vBool false)]).errors ∧
    ({ questionId := some "qb", error := "This question is required" } : VError) ∈
      (validateAnswers [formatOneQuestion rawQC10]
        [("qb", JSVal.vStr "")]).errors ∧
    ({ questionId := some "qb", error := "This question is required" } : VError) ∉
      validateOneQuestion (formatOneQuestion rawQC10) (some (JSVal.vNum 0)) := by
  refine ⟨?_, ?_, ?_⟩
  · exact C10_required_check_treats_falsy_as_missing.2.1
      [formatOneQuestion rawQC10] [("qb", JSVal.vBool false)]
      (formatOneQuestion rawQC10) (List.mem_singleton_self _) rfl rfl
  · exact C10_required_check_treats_falsy_as_missing.2.2.1
      [formatOneQuestion rawQC10] [("qb", JSVal.vStr "")]
      (formatOneQuestion rawQC10) (List.mem_singleton_self _) rfl rfl
  · exact C10_required_check_treats_falsy_as_missing.2.2.2
      [rawQC10] (formatOneQuestion rawQC10) (List.mem_singleton_self _)

end Claims

namespace Claims

open Deploy

/-- Every row of `extractRecordingFees` is described `RecordingFee`. -/
theorem mem_extractRecordingFees_desc (fees : List DFee) (row : FeeRow)
    (h : row ∈ extractRecordingFees fees) : row.feeDescription = "RecordingFee" := by
  unfold extractRecordingFees at h
  rcases List.mem_map.mp h with ⟨fee, hfee, rfl⟩
  have h2 := (List.mem_filter.mp hfee).2
  simp only [decide_eq_true_eq] at h2
  exact h2

/-- Every row of `extractTransferTaxFees` is described `TransferTax`. -/
theorem mem_extractTransferTaxFees_desc (fees : List DFee) (row : FeeRow)
    (h : row ∈ extractTransferTaxFees fees) : row.feeDescription = "TransferTax" := by
  unfold extractTransferTaxFees at h
  rcases List.mem_map.mp h with ⟨fee, hfee, rfl⟩
  have h2 := (List.mem_filter.mp hfee).2
  simp only [decide_eq_true_eq] at h2
  exact h2

/-- Every row the state-fee loop pushes is titled either with the fixed
abstractor-search title or with the key's display title. -/
theorem stateFeeRowsOfKey_desc (r : Bool) (p : String × JSVal) (row : FeeRow)
    (h : row ∈ stateFeeRowsOfKey r p) :
    row.feeDescription = "Title - Abstractor Title Search" ∨
    row.feeDescription = titleOfKey p.1 := by
  unfold stateFeeRowsOfKey at h
  repeat' split at h
  all_goals simp_all

/-- When the agricultural-tax condition fails, no row of the composed
quick-quote fee list is described `Agricultural Tax` (given that the
recording/transfer inputs carry their filter-guaranteed descriptions and
the state fee schedule maps no key to that title). -/
theorem extractFeesRows_no_agricultural (lpt postal : String) (s : ℚ)
    (sfd : StateFeeData) (e1 e2 e3 e4 : JSVal × JSVal) (rec0 tr0 : List FeeRow)
    (hrec : ∀ row ∈ rec0, row.feeDescription = "RecordingFee")
    (htr : ∀ row ∈ tr0, row.feeDescription = "TransferTax")
    (hsfd : ∀ entries, sfd = some entries →
      ∀ p ∈ entries, titleOfKey p.1 ≠ "Agricultural Tax")
    (hc : ¬((postal = "02801" ∨ postal = "02837") ∧
         (strLower lpt = "purchase" ∨ strLower lpt = "cash purchase") ∧
         s > 450000)) :
    ∀ row ∈ extractFeesRows lpt postal s sfd e1 e2 e3 e4 rec0 tr0,
      row.feeDescription ≠ "Agricultural Tax" := by
  intro row hrow
  unfold extractFeesRows at hrow
  by_cases hrw : (lpt = "Refinance" ∨ lpt = "$Refinance")
  case pos =>
    simp only [if_neg hc, if_pos hrw] at hrow
    replace hrow := (List.mem_filter.mp hrow).1
    rcases List.mem_append.mp hrow with h1 | hS
    · rcases List.mem_append.mp h1 with h2 | ht
      · rcases List.mem_append.mp h2 with h5 | hr
        · simp only [List.mem_cons, List.not_mem_nil, or_false] at h5
          rcases h5 with rfl | rfl | rfl | rfl | rfl <;> (intro hbad; simp at hbad)
        · have hd := hrec row (List.mem_filter.mp hr).1
          rw [hd]; decide
      · have hd := htr row (List.mem_filter.mp ht).1
        rw [hd]; decide
    · rcases hsf : sfd with _ | entries
      · rw [hsf] at hS; simp at hS
      · rw [hsf] at hS
        rcases List.mem_flatMap.mp hS with ⟨p, hp, hmem⟩
        rcases stateFeeRowsOfKey_desc _ p row hmem with hd | hd
        · rw [hd]; decide
        · rw [hd]; exact hsfd entries hsf p hp
  case neg =>
    simp only [if_neg hc, if_neg hrw] at hrow
    rcases List.mem_append.mp hrow with h1 | hS
    · rcases List.mem_append.mp h1 with h2 | ht
      · rcases List.mem_append.mp h2 with h5 | hr
        · simp only [List.mem_cons, List.not_mem_nil, or_false] at h5
          rcases h5 with rfl | rfl | rfl | rfl | rfl <;> (intro hbad; simp at hbad)
        · have hd := hrec row hr
          rw [hd]; decide
      · have hd := htr row ht
        rw [hd]; decide
    · rcases hsf : sfd with _ | entries
      · rw [hsf] at hS; simp at hS
      · rw [hsf] at hS
        rcases List.mem_flatMap.mp hS with ⟨p, hp, hmem⟩
        rcases stateFeeRowsOfKey_desc _ p row hmem with hd | hd
        · rw [hd]; decide
        · rw [hd]; exact hsfd entries hsf p hp

end Claims

namespace Claims

open Deploy

/-- When the agricultural-tax condition holds and the transaction is not
a refinance, the composed fee list contains the agricultural-tax row with
buyer amount `toFixed(2)` of 4% of the excess over 450000. -/
theorem agrRow_mem_extractFeesRows (lpt postal : String) (s : ℚ)
    (sfd : StateFeeData) (e1 e2 e3 e4 : JSVal × JSVal) (rec0 tr0 : List FeeRow)
    (hc : (postal = "02801" ∨ postal = "02837") ∧
      (strLower lpt = "purchase" ∨ strLower lpt = "cash purchase") ∧ s > 450000)
    (hnw : ¬(lpt = "Refinance" ∨ lpt = "$Refinance")) :
    ({ feeDescription := "Agricultural Tax", disclosureItemName := none,
       buyerFee := JSVal.vStr (ratToFixed2 ((s - 450000) * (4 / 100))),
       sellerFee := JSVal.vStr "0.0" } : FeeRow) ∈
      extractFeesRows lpt postal s sfd e1 e2 e3 e4 rec0 tr0 := by
  unfold extractFeesRows
  simp only [if_pos hc, if_neg hnw]
  simp [List.mem_append]

/-- C9: the `Agricultural Tax` line, with buyer amount 4% of the sale
price's excess over 450000, appears in the composed quick-quote fee rows
exactly when the postal code is 02801 or 02837, the transaction kind is
Purchase or Cash Purchase (never Refinance), and the sale price exceeds
450000; in particular for 02801 / 600000 / Purchase its buyer amount is
`6000.00`.  The hypothesis on `sfd` records that the state fee schedule
(a fixed-schema FNTEFees record) titles none of its keys
`Agricultural Tax`. -/
theorem C9_agricultural_tax_exact_condition (fees : List DFee)
    (lpt postal : String) (s : ℚ) (sfd : StateFeeData) (rows : List FeeRow)
    (hlpt : lpt = "Purchase" ∨ lpt = "Cash Purchase" ∨ lpt = "Refinance")
    (hsfd : ∀ entries, sfd = some entries →
      ∀ p ∈ entries, titleOfKey p.1 ≠ "Agricultural Tax")
    (hres : extractFees fees lpt postal s sfd = some rows) :
    ((∃ row ∈ rows, row.feeDescription = "Agricultural Tax") ↔
      ((postal = "02801" ∨ postal = "02837") ∧ lpt ≠ "Refinance" ∧ s > 450000)) ∧
    (((postal = "02801" ∨ postal = "02837") ∧ lpt ≠ "Refinance" ∧ s > 450000) →
      ({ feeDescription := "Agricultural Tax", disclosureItemName := none,
         buyerFee := JSVal.vStr (ratToFixed2 ((s - 450000) * (4 / 100))),
         sellerFee := JSVal.vStr "0.0" } : FeeRow) ∈ rows) ∧
    ((postal = "02801" ∧ lpt = "Purchase" ∧ s = 600000) →
      ({ feeDescription := "Agricultural Tax", disclosureItemName := none,
         buyerFee := JSVal.vStr "6000.00",
         sellerFee := JSVal.vStr "0.0" } : FeeRow) ∈ rows) := by
  have hcondiff : (strLower lpt = "purchase" ∨ strLower lpt = "cash purchase")
      ↔ lpt ≠ "Refinance" := by
    rcases hlpt with rfl | rfl | rfl
    · exact ⟨fun _ => by decide, fun _ => Or.inl (by decide)⟩
    · exact ⟨fun _ => by decide, fun _ => Or.inr (by decide)⟩
    · constructor
      · rintro (h | h) <;> exact absurd h (by decide)
      · intro h; exact absurd rfl h
  have hnw : lpt ≠ "Refinance" → ¬(lpt = "Refinance" ∨ lpt = "$Refinance") := by
    intro h
    rintro (h2 | h2)
    · exact h h2
    · rcases hlpt with rfl | rfl | rfl <;> exact absurd h2 (by decide)
  unfold extractFees at hres
  dsimp only at hres
  split at hres
  case h_2 => exact absurd hres (by simp)
  rename_i e1 e2 e3 e4 heq1 heq2 heq3 heq4
  injection hres with hrows
  subst hrows
  refine ⟨⟨?_, ?_⟩, ?_, ?_⟩
  · rintro ⟨row, hrow, hdesc⟩
    by_contra hcond
    refine extractFeesRows_no_agricultural lpt postal s sfd e1 e2 e3 e4 _ _
      (fun r hr => mem_extractRecordingFees_desc fees r hr)
      (fun r hr => mem_extractTransferTaxFees_desc fees r hr) hsfd
      ?_ row hrow hdesc
    intro hcc
    exact hcond ⟨hcc.1, hcondiff.mp hcc.2.1, hcc.2.2⟩
  · intro hcond
    exact ⟨_, agrRow_mem_extractFeesRows lpt postal s sfd e1 e2 e3 e4 _ _
      ⟨hcond.1, hcondiff.mpr hcond.2.1, hcond.2.2⟩ (hnw hcond.2.1), rfl⟩
  · intro hcond
    exact agrRow_mem_extractFeesRows lpt postal s sfd e1 e2 e3 e4 _ _
      ⟨hcond.1, hcondiff.mpr hcond.2.1, hcond.2.2⟩ (hnw hcond.2.1)
  · rintro ⟨hp, hl, hs⟩
    subst hp; subst hl; subst hs
    have hmem := agrRow_mem_extractFeesRows "Purchase" "02801" 600000 sfd e1 e2 e3 e4
      (extractRecordingFees fees) (extractTransferTaxFees fees)
      ⟨Or.inl rfl, Or.inl (by decide), by norm_num⟩
      (by rintro (h | h) <;> exact absurd h (by decide))
    have harith : ((600000 : ℚ) - 450000) * (4 / 100) = 6000 := by norm_num
    have hfix : ratToFixed2 (((600000 : ℚ) - 450000) * (4 / 100)) = "6000.00" := by
      rw [harith]
      unfold ratToFixed2
      rw [Rat.num_ofNat, Rat.den_ofNat]
      decide
    rw [hfix] at hmem
    exact hmem

end Claims

namespace Claims

open Deploy

/-- The composed fee rows for the C9 witness scenario (empty upstream fee
array, Purchase, postal 02801, sale amount 600000, no state schedule):
the five labelled placeholder rows plus the agricultural-tax row. -/
def rowsC9 : List FeeRow :=
  [ { feeDescription := "Title - Owner\x27s Title Insurance"
      buyerFee := .vStr "0.0", sellerFee := .vStr "0.0" }
  , { feeDescription := "Title - Lender\x27s Title Insurance"
      buyerFee := .vStr "0.0", sellerFee := .vStr "0.0" }
  , { feeDescription := "Title - Settlement Fee"
      buyerFee := .vStr "0", sellerFee := .vStr "0.0" }
  , { feeDescription := "Title - Sales Tax - Owner\x27s Title Insurance"
      buyerFee := .vStr "0.0", sellerFee := .vStr "0.0" }
  , { feeDescription := "Title - Sales Tax - Lender\x27s Title Insurance"
      buyerFee := .vStr "0.0", sellerFee := .vStr "0.0" }
  , { feeDescription := "Agricultural Tax"
      buyerFee := .vStr (ratToFixed2 (((600000 : ℚ) - 450000) * (4 / 100)))
      sellerFee := .vStr "0.0" } ]

/-- Witness for C9 at the concrete scenario: postal 02801, Purchase,
sale amount 600000 put the `Agricultural Tax` row with buyer amount
`6000.00` into the composed rows. -/
theorem C9_agricultural_tax_exact_condition_witness :
    ({ feeDescription := "Agricultural Tax", disclosureItemName := none,
       buyerFee := JSVal.vStr "6000.00",
       sellerFee := JSVal.vStr "0.0" } : FeeRow) ∈ rowsC9 :=
  (C9_agricultural_tax_exact_condition [] "Purchase" "02801" 600000 none rowsC9
    (Or.inl rfl) (fun _ h => Option.noConfusion h) rfl).2.2 ⟨rfl, rfl, rfl⟩

end Claims
